import Mathlib

/-!
# Geometric Lighting teapot: Bezier patch evaluation, tessellation and transform model

A formal model of the Bezier-teapot program in
`src/GeometricLighting/Geometric_Lighting/main.cpp`.  The repository ships only
`main.cpp`; the `Patch`, `B_Spline` and transform classes are declared in headers
whose implementation files are not part of the source tree, so their behaviour is
modelled from the specification (each such definition carries a doc comment
starting with `Modelled from the spec:`).  Floating-point arithmetic is modelled
by exact rational arithmetic for the computational claims and by real arithmetic
for the analytic claims (derivatives, normalization, trigonometry); exact
arithmetic has no NaN or infinity, so "finite, no NaN" claims become claims
about well-defined values and nonzero denominators/areas.

The heavy numeric facts (5600-triangle tessellation of the full teapot) are
computed on an integer mirror of the rational model (all control points scaled
by 4000, parameters `a/10` handled by scaled Bernstein weights) and transported
back to the rational model by proved scaling lemmas.
-/

/-- A 3-component vector of rationals, the exact-arithmetic model of `glm::vec3`. -/
structure Vec3 where
  x : ℚ
  y : ℚ
  z : ℚ
deriving DecidableEq

/-- Componentwise vector addition. -/
def vadd (a b : Vec3) : Vec3 := ⟨a.x + b.x, a.y + b.y, a.z + b.z⟩

/-- Componentwise vector subtraction. -/
def vsub (a b : Vec3) : Vec3 := ⟨a.x - b.x, a.y - b.y, a.z - b.z⟩

/-- Scalar multiplication of a vector. -/
def vsmul (c : ℚ) (a : Vec3) : Vec3 := ⟨c * a.x, c * a.y, c * a.z⟩

/-- The cross product of two vectors. -/
def vcross (a b : Vec3) : Vec3 :=
  ⟨a.y * b.z - a.z * b.y, a.z * b.x - a.x * b.z, a.x * b.y - a.y * b.x⟩

/-- Test for the zero vector. -/
def isZeroVec (v : Vec3) : Bool := v.x == 0 && v.y == 0 && v.z == 0

/-- The 4×4 control grid of one Bezier patch: field `pij` is the control point
`P[i][j]`, i.e. the point at index `4*i + j` of the 16 points handed to
`B_Spline::SetControlPoints` in `generateTeapot`. -/
structure Patch where
  p00 : Vec3
  p01 : Vec3
  p02 : Vec3
  p03 : Vec3
  p10 : Vec3
  p11 : Vec3
  p12 : Vec3
  p13 : Vec3
  p20 : Vec3
  p21 : Vec3
  p22 : Vec3
  p23 : Vec3
  p30 : Vec3
  p31 : Vec3
  p32 : Vec3
  p33 : Vec3
deriving DecidableEq

/-- The cubic Bernstein basis weight `B0(t) = (1-t)^3`. -/
def bern0 (t : ℚ) : ℚ := (1 - t) ^ 3

/-- The cubic Bernstein basis weight `B1(t) = 3t(1-t)^2`. -/
def bern1 (t : ℚ) : ℚ := 3 * t * (1 - t) ^ 2

/-- The cubic Bernstein basis weight `B2(t) = 3t^2(1-t)`. -/
def bern2 (t : ℚ) : ℚ := 3 * t ^ 2 * (1 - t)

/-- The cubic Bernstein basis weight `B3(t) = t^3`. -/
def bern3 (t : ℚ) : ℚ := t ^ 3

/-- Modelled from the spec: the tensor-product Bezier surface position computed
by the missing `Patch` implementation:
`position(u,v) = Σ_{i,j} B_i(u) · B_j(v) · P[i][j]`. -/
def bezierPosition (P : Patch) (u v : ℚ) : Vec3 :=
  let bu0 := bern0 u
  let bu1 := bern1 u
  let bu2 := bern2 u
  let bu3 := bern3 u
  let bv0 := bern0 v
  let bv1 := bern1 v
  let bv2 := bern2 v
  let bv3 := bern3 v
  vadd (vadd (vadd (vadd (vsmul (bu0 * bv0) P.p00) (vsmul (bu0 * bv1) P.p01))
                   (vadd (vsmul (bu0 * bv2) P.p02) (vsmul (bu0 * bv3) P.p03)))
             (vadd (vadd (vsmul (bu1 * bv0) P.p10) (vsmul (bu1 * bv1) P.p11))
                   (vadd (vsmul (bu1 * bv2) P.p12) (vsmul (bu1 * bv3) P.p13))))
       (vadd (vadd (vadd (vsmul (bu2 * bv0) P.p20) (vsmul (bu2 * bv1) P.p21))
                   (vadd (vsmul (bu2 * bv2) P.p22) (vsmul (bu2 * bv3) P.p23)))
             (vadd (vadd (vsmul (bu3 * bv0) P.p30) (vsmul (bu3 * bv1) P.p31))
                   (vadd (vsmul (bu3 * bv2) P.p32) (vsmul (bu3 * bv3) P.p33))))

/-- The cubic Bezier curve through four control points at parameter `t`,
blended with the cubic Bernstein weights. -/
def cubicPoint (q0 q1 q2 q3 : Vec3) (t : ℚ) : Vec3 :=
  vadd (vadd (vsmul (bern0 t) q0) (vsmul (bern1 t) q1))
       (vadd (vsmul (bern2 t) q2) (vsmul (bern3 t) q3))

/-- Modelled from the spec (and the `main.cpp` header comment): the tangent of a
cubic Bezier curve via the quadratic Bernstein weights over the control-point
differences, scaled by 3:
`Tangent(t) = 3·((1-t)²·(P1-P0) + 2t(1-t)·(P2-P1) + t²·(P3-P2))`. -/
def cubicTangent (q0 q1 q2 q3 : Vec3) (t : ℚ) : Vec3 :=
  vsmul 3 (vadd (vadd (vsmul ((1 - t) ^ 2) (vsub q1 q0))
                      (vsmul (2 * t * (1 - t)) (vsub q2 q1)))
                (vsmul (t ^ 2) (vsub q3 q2)))

/-- Modelled from the spec: the u-direction surface tangent: reduce each row of
the grid to a point by evaluating the row's cubic at `v`, then take the tangent
of the resulting cubic at `u`. -/
def tangentU (P : Patch) (u v : ℚ) : Vec3 :=
  cubicTangent (cubicPoint P.p00 P.p01 P.p02 P.p03 v)
               (cubicPoint P.p10 P.p11 P.p12 P.p13 v)
               (cubicPoint P.p20 P.p21 P.p22 P.p23 v)
               (cubicPoint P.p30 P.p31 P.p32 P.p33 v) u

/-- Modelled from the spec: the v-direction surface tangent, symmetric to
`tangentU` with rows and columns swapped. -/
def tangentV (P : Patch) (u v : ℚ) : Vec3 :=
  cubicTangent (cubicPoint P.p00 P.p10 P.p20 P.p30 u)
               (cubicPoint P.p01 P.p11 P.p21 P.p31 u)
               (cubicPoint P.p02 P.p12 P.p22 P.p32 u)
               (cubicPoint P.p03 P.p13 P.p23 P.p33 u) v

/-- Modelled from the spec: the (pre-normalization) surface normal
`Tangent_u × Tangent_v`; exact arithmetic cannot take the square root needed
for unit scaling, so the rational mesh stores this cross product. -/
def normalVec (P : Patch) (u v : ℚ) : Vec3 :=
  vcross (tangentU P u v) (tangentV P u v)

/-- Rows 0–3 of the `teapotControlPoints` table of `main.cpp` (patch 0),
transcribed verbatim as exact decimal rationals. -/
def teapotTable0 : List ℚ := [
  1.4, 2.25, 0, 1.3375, 2.38125, 0, 1.4375, 2.38125, 0, 1.5, 2.25, 0,
  1.4, 2.25, 0.784, 1.3375, 2.38125, 0.749, 1.4375, 2.38125, 0.805, 1.5, 2.25, 0.84,
  0.784, 2.25, 1.4, 0.749, 2.38125, 1.3375, 0.805, 2.38125, 1.4375, 0.84, 2.25, 1.5,
  0, 2.25, 1.4, 0, 2.38125, 1.3375, 0, 2.38125, 1.4375, 0, 2.25, 1.5]

/-- Rows 4–7 of the `teapotControlPoints` table of `main.cpp` (patch 1),
transcribed verbatim as exact decimal rationals. -/
def teapotTable1 : List ℚ := [
  0, 2.25, 1.4, 0, 2.38125, 1.3375, 0, 2.38125, 1.4375, 0, 2.25, 1.5,
  -0.784, 2.25, 1.4, -0.749, 2.38125, 1.3375, -0.805, 2.38125, 1.4375, -0.84, 2.25, 1.5,
  -1.4, 2.25, 0.784, -1.3375, 2.38125, 0.749, -1.4375, 2.38125, 0.805, -1.5, 2.25, 0.84,
  -1.4, 2.25, 0, -1.3375, 2.38125, 0, -1.4375, 2.38125, 0, -1.5, 2.25, 0]

/-- Rows 8–11 of the `teapotControlPoints` table of `main.cpp` (patch 2),
transcribed verbatim as exact decimal rationals. -/
def teapotTable2 : List ℚ := [
  -1.4, 2.25, 0, -1.3375, 2.38125, 0, -1.4375, 2.38125, 0, -1.5, 2.25, 0,
  -1.4, 2.25, -0.784, -1.3375, 2.38125, -0.749, -1.4375, 2.38125, -0.805, -1.5, 2.25, -0.84,
  -0.784, 2.25, -1.4, -0.749, 2.38125, -1.3375, -0.805, 2.38125, -1.4375, -0.84, 2.25, -1.5,
  0, 2.25, -1.4, 0, 2.38125, -1.3375, 0, 2.38125, -1.4375, 0, 2.25, -1.5]

/-- Rows 12–15 of the `teapotControlPoints` table of `main.cpp` (patch 3),
transcribed verbatim as exact decimal rationals. -/
def teapotTable3 : List ℚ := [
  0, 2.25, -1.4, 0, 2.38125, -1.3375, 0, 2.38125, -1.4375, 0, 2.25, -1.5,
  0.784, 2.25, -1.4, 0.749, 2.38125, -1.3375, 0.805, 2.38125, -1.4375, 0.84, 2.25, -1.5,
  1.4, 2.25, -0.784, 1.3375, 2.38125, -0.749, 1.4375, 2.38125, -0.805, 1.5, 2.25, -0.84,
  1.4, 2.25, 0, 1.3375, 2.38125, 0, 1.4375, 2.38125, 0, 1.5, 2.25, 0]

/-- Rows 16–19 of the `teapotControlPoints` table of `main.cpp` (patch 4),
transcribed verbatim as exact decimal rationals. -/
def teapotTable4 : List ℚ := [
  1.5, 2.25, 0, 1.75, 1.725, 0, 2, 1.2, 0, 2, 0.75, 0,
  1.5, 2.25, 0.84, 1.75, 1.725, 0.98, 2, 1.2, 1.12, 2, 0.75, 1.12,
  0.84, 2.25, 1.5, 0.98, 1.725, 1.75, 1.12, 1.2, 2, 1.12, 0.75, 2,
  0, 2.25, 1.5, 0, 1.725, 1.75, 0, 1.2, 2, 0, 0.75, 2]

/-- Rows 20–23 of the `teapotControlPoints` table of `main.cpp` (patch 5),
transcribed verbatim as exact decimal rationals. -/
def teapotTable5 : List ℚ := [
  0, 2.25, 1.5, 0, 1.725, 1.75, 0, 1.2, 2, 0, 0.75, 2,
  -0.84, 2.25, 1.5, -0.98, 1.725, 1.75, -1.12, 1.2, 2, -1.12, 0.75, 2,
  -1.5, 2.25, 0.84, -1.75, 1.725, 0.98, -2, 1.2, 1.12, -2, 0.75, 1.12,
  -1.5, 2.25, 0, -1.75, 1.725, 0, -2, 1.2, 0, -2, 0.75, 0]

/-- Rows 24–27 of the `teapotControlPoints` table of `main.cpp` (patch 6),
transcribed verbatim as exact decimal rationals. -/
def teapotTable6 : List ℚ := [
  -1.5, 2.25, 0, -1.75, 1.725, 0, -2, 1.2, 0, -2, 0.75, 0,
  -1.5, 2.25, -0.84, -1.75, 1.725, -0.98, -2, 1.2, -1.12, -2, 0.75, -1.12,
  -0.84, 2.25, -1.5, -0.98, 1.725, -1.75, -1.12, 1.2, -2, -1.12, 0.75, -2,
  0, 2.25, -1.5, 0, 1.725, -1.75, 0, 1.2, -2, 0, 0.75, -2]

/-- Rows 28–31 of the `teapotControlPoints` table of `main.cpp` (patch 7),
transcribed verbatim as exact decimal rationals. -/
def teapotTable7 : List ℚ := [
  0, 2.25, -1.5, 0, 1.725, -1.75, 0, 1.2, -2, 0, 0.75, -2,
  0.84, 2.25, -1.5, 0.98, 1.725, -1.75, 1.12, 1.2, -2, 1.12, 0.75, -2,
  1.5, 2.25, -0.84, 1.75, 1.725, -0.98, 2, 1.2, -1.12, 2, 0.75, -1.12,
  1.5, 2.25, 0, 1.75, 1.725, 0, 2, 1.2, 0, 2, 0.75, 0]

/-- Rows 32–35 of the `teapotControlPoints` table of `main.cpp` (patch 8),
transcribed verbatim as exact decimal rationals. -/
def teapotTable8 : List ℚ := [
  2, 0.75, 0, 2, 0.3, 0, 1.5, 0.075, 0, 1.5, 0, 0,
  2, 0.75, 1.12, 2, 0.3, 1.12, 1.5, 0.075, 0.84, 1.5, 0, 0.84,
  1.12, 0.75, 2, 1.12, 0.3, 2, 0.84, 0.075, 1.5, 0.84, 0, 1.5,
  0, 0.75, 2, 0, 0.3, 2, 0, 0.075, 1.5, 0, 0, 1.5]

/-- Rows 36–39 of the `teapotControlPoints` table of `main.cpp` (patch 9),
transcribed verbatim as exact decimal rationals. -/
def teapotTable9 : List ℚ := [
  0, 0.75, 2, 0, 0.3, 2, 0, 0.075, 1.5, 0, 0, 1.5,
  -1.12, 0.75, 2, -1.12, 0.3, 2, -0.84, 0.075, 1.5, -0.84, 0, 1.5,
  -2, 0.75, 1.12, -2, 0.3, 1.12, -1.5, 0.075, 0.84, -1.5, 0, 0.84,
  -2, 0.75, 0, -2, 0.3, 0, -1.5, 0.075, 0, -1.5, 0, 0]

/-- Rows 40–43 of the `teapotControlPoints` table of `main.cpp` (patch 10),
transcribed verbatim as exact decimal rationals. -/
def teapotTable10 : List ℚ := [
  -2, 0.75, 0, -2, 0.3, 0, -1.5, 0.075, 0, -1.5, 0, 0,
  -2, 0.75, -1.12, -2, 0.3, -1.12, -1.5, 0.075, -0.84, -1.5, 0, -0.84,
  -1.12, 0.75, -2, -1.12, 0.3, -2, -0.84, 0.075, -1.5, -0.84, 0, -1.5,
  0, 0.75, -2, 0, 0.3, -2, 0, 0.075, -1.5, 0, 0, -1.5]

/-- Rows 44–47 of the `teapotControlPoints` table of `main.cpp` (patch 11),
transcribed verbatim as exact decimal rationals. -/
def teapotTable11 : List ℚ := [
  0, 0.75, -2, 0, 0.3, -2, 0, 0.075, -1.5, 0, 0, -1.5,
  1.12, 0.75, -2, 1.12, 0.3, -2, 0.84, 0.075, -1.5, 0.84, 0, -1.5,
  2, 0.75, -1.12, 2, 0.3, -1.12, 1.5, 0.075, -0.84, 1.5, 0, -0.84,
  2, 0.75, 0, 2, 0.3, 0, 1.5, 0.075, 0, 1.5, 0, 0]

/-- Rows 48–51 of the `teapotControlPoints` table of `main.cpp` (patch 12),
transcribed verbatim as exact decimal rationals. -/
def teapotTable12 : List ℚ := [
  -1.6, 1.875, 0, -2.3, 1.875, 0, -2.7, 1.875, 0, -2.7, 1.65, 0,
  -1.6, 1.875, 0.3, -2.3, 1.875, 0.3, -2.7, 1.875, 0.3, -2.7, 1.65, 0.3,
  -1.5, 2.1, 0.3, -2.5, 2.1, 0.3, -3, 2.1, 0.3, -3, 1.65, 0.3,
  -1.5, 2.1, 0, -2.5, 2.1, 0, -3, 2.1, 0, -3, 1.65, 0]

/-- Rows 52–55 of the `teapotControlPoints` table of `main.cpp` (patch 13),
transcribed verbatim as exact decimal rationals. -/
def teapotTable13 : List ℚ := [
  -1.5, 2.1, 0, -2.5, 2.1, 0, -3, 2.1, 0, -3, 1.65, 0,
  -1.5, 2.1, -0.3, -2.5, 2.1, -0.3, -3, 2.1, -0.3, -3, 1.65, -0.3,
  -1.6, 1.875, -0.3, -2.3, 1.875, -0.3, -2.7, 1.875, -0.3, -2.7, 1.65, -0.3,
  -1.6, 1.875, 0, -2.3, 1.875, 0, -2.7, 1.875, 0, -2.7, 1.65, 0]

/-- Rows 56–59 of the `teapotControlPoints` table of `main.cpp` (patch 14),
transcribed verbatim as exact decimal rationals. -/
def teapotTable14 : List ℚ := [
  -2.7, 1.65, 0, -2.7, 1.425, 0, -2.5, 0.975, 0, -2, 0.75, 0,
  -2.7, 1.65, 0.3, -2.7, 1.425, 0.3, -2.5, 0.975, 0.3, -2, 0.75, 0.3,
  -3, 1.65, 0.3, -3, 1.2, 0.3, -2.65, 0.7875, 0.3, -1.9, 0.45, 0.3,
  -3, 1.65, 0, -3, 1.2, 0, -2.65, 0.7875, 0, -1.9, 0.45, 0]

/-- Rows 60–63 of the `teapotControlPoints` table of `main.cpp` (patch 15),
transcribed verbatim as exact decimal rationals. -/
def teapotTable15 : List ℚ := [
  -3, 1.65, 0, -3, 1.2, 0, -2.65, 0.7875, 0, -1.9, 0.45, 0,
  -3, 1.65, -0.3, -3, 1.2, -0.3, -2.65, 0.7875, -0.3, -1.9, 0.45, -0.3,
  -2.7, 1.65, -0.3, -2.7, 1.425, -0.3, -2.5, 0.975, -0.3, -2, 0.75, -0.3,
  -2.7, 1.65, 0, -2.7, 1.425, 0, -2.5, 0.975, 0, -2, 0.75, 0]

/-- Rows 64–67 of the `teapotControlPoints` table of `main.cpp` (patch 16),
transcribed verbatim as exact decimal rationals. -/
def teapotTable16 : List ℚ := [
  1.7, 1.275, 0, 2.6, 1.275, 0, 2.3, 1.95, 0, 2.7, 2.25, 0,
  1.7, 1.275, 0.66, 2.6, 1.275, 0.66, 2.3, 1.95, 0.25, 2.7, 2.25, 0.25,
  1.7, 0.45, 0.66, 3.1, 0.675, 0.66, 2.4, 1.875, 0.25, 3.3, 2.25, 0.25,
  1.7, 0.45, 0, 3.1, 0.675, 0, 2.4, 1.875, 0, 3.3, 2.25, 0]

/-- Rows 68–71 of the `teapotControlPoints` table of `main.cpp` (patch 17),
transcribed verbatim as exact decimal rationals. -/
def teapotTable17 : List ℚ := [
  1.7, 0.45, 0, 3.1, 0.675, 0, 2.4, 1.875, 0, 3.3, 2.25, 0,
  1.7, 0.45, -0.66, 3.1, 0.675, -0.66, 2.4, 1.875, -0.25, 3.3, 2.25, -0.25,
  1.7, 1.275, -0.66, 2.6, 1.275, -0.66, 2.3, 1.95, -0.25, 2.7, 2.25, -0.25,
  1.7, 1.275, 0, 2.6, 1.275, 0, 2.3, 1.95, 0, 2.7, 2.25, 0]

/-- Rows 72–75 of the `teapotControlPoints` table of `main.cpp` (patch 18),
transcribed verbatim as exact decimal rationals. -/
def teapotTable18 : List ℚ := [
  2.7, 2.25, 0, 2.8, 2.325, 0, 2.9, 2.325, 0, 2.8, 2.25, 0,
  2.7, 2.25, 0.25, 2.8, 2.325, 0.25, 2.9, 2.325, 0.15, 2.8, 2.25, 0.15,
  3.3, 2.25, 0.25, 3.525, 2.34375, 0.25, 3.45, 2.3625, 0.15, 3.2, 2.25, 0.15,
  3.3, 2.25, 0, 3.525, 2.34375, 0, 3.45, 2.3625, 0, 3.2, 2.25, 0]

/-- Rows 76–79 of the `teapotControlPoints` table of `main.cpp` (patch 19),
transcribed verbatim as exact decimal rationals. -/
def teapotTable19 : List ℚ := [
  3.3, 2.25, 0, 3.525, 2.34375, 0, 3.45, 2.3625, 0, 3.2, 2.25, 0,
  3.3, 2.25, -0.25, 3.525, 2.34375, -0.25, 3.45, 2.3625, -0.15, 3.2, 2.25, -0.15,
  2.7, 2.25, -0.25, 2.8, 2.325, -0.25, 2.9, 2.325, -0.15, 2.8, 2.25, -0.15,
  2.7, 2.25, 0, 2.8, 2.325, 0, 2.9, 2.325, 0, 2.8, 2.25, 0]

/-- Rows 80–83 of the `teapotControlPoints` table of `main.cpp` (patch 20),
transcribed verbatim as exact decimal rationals. -/
def teapotTable20 : List ℚ := [
  0, 3, 0, 0.8, 3, 0, 0, 2.7, 0, 0.2, 2.55, 0,
  0, 3, 0.002, 0.8, 3, 0.45, 0, 2.7, 0, 0.2, 2.55, 0.112,
  0.002, 3, 0, 0.45, 3, 0.8, 0, 2.7, 0, 0.112, 2.55, 0.2,
  0, 3, 0, 0, 3, 0.8, 0, 2.7, 0, 0, 2.55, 0.2]

/-- Rows 84–87 of the `teapotControlPoints` table of `main.cpp` (patch 21),
transcribed verbatim as exact decimal rationals. -/
def teapotTable21 : List ℚ := [
  0, 3, 0, 0, 3, 0.8, 0, 2.7, 0, 0, 2.55, 0.2,
  -0.002, 3, 0, -0.45, 3, 0.8, 0, 2.7, 0, -0.112, 2.55, 0.2,
  0, 3, 0.002, -0.8, 3, 0.45, 0, 2.7, 0, -0.2, 2.55, 0.112,
  0, 3, 0, -0.8, 3, 0, 0, 2.7, 0, -0.2, 2.55, 0]

/-- Rows 88–91 of the `teapotControlPoints` table of `main.cpp` (patch 22),
transcribed verbatim as exact decimal rationals. -/
def teapotTable22 : List ℚ := [
  0, 3, 0, -0.8, 3, 0, 0, 2.7, 0, -0.2, 2.55, 0,
  0, 3, -0.002, -0.8, 3, -0.45, 0, 2.7, 0, -0.2, 2.55, -0.112,
  -0.002, 3, 0, -0.45, 3, -0.8, 0, 2.7, 0, -0.112, 2.55, -0.2,
  0, 3, 0, 0, 3, -0.8, 0, 2.7, 0, 0, 2.55, -0.2]

/-- Rows 92–95 of the `teapotControlPoints` table of `main.cpp` (patch 23),
transcribed verbatim as exact decimal rationals. -/
def teapotTable23 : List ℚ := [
  0, 3, 0, 0, 3, -0.8, 0, 2.7, 0, 0, 2.55, -0.2,
  0.002, 3, 0, 0.45, 3, -0.8, 0, 2.7, 0, 0.112, 2.55, -0.2,
  0, 3, -0.002, 0.8, 3, -0.45, 0, 2.7, 0, 0.2, 2.55, -0.112,
  0, 3, 0, 0.8, 3, 0, 0, 2.7, 0, 0.2, 2.55, 0]

/-- Rows 96–99 of the `teapotControlPoints` table of `main.cpp` (patch 24),
transcribed verbatim as exact decimal rationals. -/
def teapotTable24 : List ℚ := [
  0.2, 2.55, 0, 0.4, 2.4, 0, 1.3, 2.4, 0, 1.3, 2.25, 0,
  0.2, 2.55, 0.112, 0.4, 2.4, 0.224, 1.3, 2.4, 0.728, 1.3, 2.25, 0.728,
  0.112, 2.55, 0.2, 0.224, 2.4, 0.4, 0.728, 2.4, 1.3, 0.728, 2.25, 1.3,
  0, 2.55, 0.2, 0, 2.4, 0.4, 0, 2.4, 1.3, 0, 2.25, 1.3]

/-- Rows 100–103 of the `teapotControlPoints` table of `main.cpp` (patch 25),
transcribed verbatim as exact decimal rationals. -/
def teapotTable25 : List ℚ := [
  0, 2.55, 0.2, 0, 2.4, 0.4, 0, 2.4, 1.3, 0, 2.25, 1.3,
  -0.112, 2.55, 0.2, -0.224, 2.4, 0.4, -0.728, 2.4, 1.3, -0.728, 2.25, 1.3,
  -0.2, 2.55, 0.112, -0.4, 2.4, 0.224, -1.3, 2.4, 0.728, -1.3, 2.25, 0.728,
  -0.2, 2.55, 0, -0.4, 2.4, 0, -1.3, 2.4, 0, -1.3, 2.25, 0]

/-- Rows 104–107 of the `teapotControlPoints` table of `main.cpp` (patch 26),
transcribed verbatim as exact decimal rationals. -/
def teapotTable26 : List ℚ := [
  -0.2, 2.55, 0, -0.4, 2.4, 0, -1.3, 2.4, 0, -1.3, 2.25, 0,
  -0.2, 2.55, -0.112, -0.4, 2.4, -0.224, -1.3, 2.4, -0.728, -1.3, 2.25, -0.728,
  -0.112, 2.55, -0.2, -0.224, 2.4, -0.4, -0.728, 2.4, -1.3, -0.728, 2.25, -1.3,
  0, 2.55, -0.2, 0, 2.4, -0.4, 0, 2.4, -1.3, 0, 2.25, -1.3]

/-- Rows 108–111 of the `teapotControlPoints` table of `main.cpp` (patch 27),
transcribed verbatim as exact decimal rationals. -/
def teapotTable27 : List ℚ := [
  0, 2.55, -0.2, 0, 2.4, -0.4, 0, 2.4, -1.3, 0, 2.25, -1.3,
  0.112, 2.55, -0.2, 0.224, 2.4, -0.4, 0.728, 2.4, -1.3, 0.728, 2.25, -1.3,
  0.2, 2.55, -0.112, 0.4, 2.4, -0.224, 1.3, 2.4, -0.728, 1.3, 2.25, -0.728,
  0.2, 2.55, 0, 0.4, 2.4, 0, 1.3, 2.4, 0, 1.3, 2.25, 0]

/-- The flat control-point table `teapotControlPoints` of `main.cpp`: the 28
per-patch blocks concatenated in order (28 patches × 16 points × 3 coordinates
= 1344 entries). -/
def teapotControlPoints : List ℚ :=
  teapotTable0 ++ teapotTable1 ++ teapotTable2 ++ teapotTable3 ++ teapotTable4 ++ teapotTable5 ++ teapotTable6 ++
  teapotTable7 ++ teapotTable8 ++ teapotTable9 ++ teapotTable10 ++ teapotTable11 ++ teapotTable12 ++ teapotTable13 ++
  teapotTable14 ++ teapotTable15 ++ teapotTable16 ++ teapotTable17 ++ teapotTable18 ++ teapotTable19 ++ teapotTable20 ++
  teapotTable21 ++ teapotTable22 ++ teapotTable23 ++ teapotTable24 ++ teapotTable25 ++ teapotTable26 ++ teapotTable27

/-- The 28 per-patch blocks of the table as a list of chunks (used to reason
about flat-index access patch by patch). -/
def teapotTables : List (List ℚ) :=
  [teapotTable0, teapotTable1, teapotTable2, teapotTable3, teapotTable4, teapotTable5, teapotTable6,
   teapotTable7, teapotTable8, teapotTable9, teapotTable10, teapotTable11, teapotTable12, teapotTable13,
   teapotTable14, teapotTable15, teapotTable16, teapotTable17, teapotTable18, teapotTable19, teapotTable20,
   teapotTable21, teapotTable22, teapotTable23, teapotTable24, teapotTable25, teapotTable26, teapotTable27]
/-- Entry `n` of the control-point table (0 outside the table), the model of
the array read `teapotControlPoints[n]`. -/
def tableEntry (n : ℕ) : ℚ := teapotControlPoints.getD n 0

/-- The `j`-th control point of patch `i` as laid out in the table: the triple
starting at flat index `48*i + 3*j` (the table-order reading performed by
`generateTeapot`). -/
def controlPointAt (i j : ℕ) : Vec3 :=
  ⟨tableEntry (48 * i + 3 * j), tableEntry (48 * i + (3 * j + 1)), tableEntry (48 * i + (3 * j + 2))⟩

/-- The control grid of teapot patch `i`, loaded from the table in table order
(point `j` is `controlPointAt i j`), as `generateTeapot` does under
left-to-right evaluation of the chained `k++` arguments. -/
def teapotPatch (i : ℕ) : Patch :=
  ⟨controlPointAt i 0, controlPointAt i 1, controlPointAt i 2, controlPointAt i 3,
   controlPointAt i 4, controlPointAt i 5, controlPointAt i 6, controlPointAt i 7,
   controlPointAt i 8, controlPointAt i 9, controlPointAt i 10, controlPointAt i 11,
   controlPointAt i 12, controlPointAt i 13, controlPointAt i 14, controlPointAt i 15⟩

/-- A patch built from one 48-entry chunk of the table. -/
def patchOfChunk (l : List ℚ) : Patch :=
  ⟨⟨l.getD 0 0, l.getD 1 0, l.getD 2 0⟩, ⟨l.getD 3 0, l.getD 4 0, l.getD 5 0⟩,
   ⟨l.getD 6 0, l.getD 7 0, l.getD 8 0⟩, ⟨l.getD 9 0, l.getD 10 0, l.getD 11 0⟩,
   ⟨l.getD 12 0, l.getD 13 0, l.getD 14 0⟩, ⟨l.getD 15 0, l.getD 16 0, l.getD 17 0⟩,
   ⟨l.getD 18 0, l.getD 19 0, l.getD 20 0⟩, ⟨l.getD 21 0, l.getD 22 0, l.getD 23 0⟩,
   ⟨l.getD 24 0, l.getD 25 0, l.getD 26 0⟩, ⟨l.getD 27 0, l.getD 28 0, l.getD 29 0⟩,
   ⟨l.getD 30 0, l.getD 31 0, l.getD 32 0⟩, ⟨l.getD 33 0, l.getD 34 0, l.getD 35 0⟩,
   ⟨l.getD 36 0, l.getD 37 0, l.getD 38 0⟩, ⟨l.getD 39 0, l.getD 40 0, l.getD 41 0⟩,
   ⟨l.getD 42 0, l.getD 43 0, l.getD 44 0⟩, ⟨l.getD 45 0, l.getD 46 0, l.getD 47 0⟩⟩

/-- One row of tessellation samples of a patch at resolution `R`: the positions
at `(u, v) = (a/R, b/R)` for `b = 0, …, R`, with `a` fixed. -/
def sampleRow (P : Patch) (R a : ℕ) : List Vec3 :=
  (List.range (R + 1)).map fun b : ℕ => bezierPosition P ((a : ℚ) / (R : ℚ)) ((b : ℚ) / (R : ℚ))

/-- Modelled from the spec: the two triangles a tessellation grid cell emits,
with the cell's corners `A = (a,b)`, `B = (a+1,b)`, `C = (a,b+1)`, `D = (a+1,b+1)`
and consistent winding. -/
def cellTriangles (A B C D : Vec3) : List (Vec3 × Vec3 × Vec3) :=
  [(A, B, C), (B, D, C)]

/-- The triangles of one strip between two adjacent sample rows. -/
def stripTriangles : List Vec3 → List Vec3 → List (Vec3 × Vec3 × Vec3)
  | A :: C :: r1, B :: D :: r2 =>
      cellTriangles A B C D ++ stripTriangles (C :: r1) (D :: r2)
  | _, _ => []

/-- Modelled from the spec: the triangle list `Patch::Tessellate` realizes at
resolution `R`: an `(R+1) × (R+1)` uniform parameter grid is sampled and every
grid cell emits its two triangles. -/
def patchTriangles (P : Patch) (R : ℕ) : List (Vec3 × Vec3 × Vec3) :=
  (List.range R).foldr
    (fun a acc => stripTriangles (sampleRow P R a) (sampleRow P R (a + 1)) ++ acc) []

/-- A triangle is degenerate iff the cross product of two of its edge vectors
is zero, i.e. iff it has zero area. -/
def triangleDegenerate (T : Vec3 × Vec3 × Vec3) : Bool :=
  isZeroVec (vcross (vsub T.2.1 T.1) (vsub T.2.2 T.1))

/-- The full teapot triangle list: every one of the 28 patches tessellated at
resolution `R = 10`. -/
def teapotTriangles : List (Vec3 × Vec3 × Vec3) :=
  (List.range 28).foldr (fun i acc => patchTriangles (teapotPatch i) 10 ++ acc) []

/-- One row of (pre-normalization) surface normals, matching `sampleRow`. -/
def normalRow (P : Patch) (R a : ℕ) : List Vec3 :=
  (List.range (R + 1)).map fun b : ℕ => normalVec P ((a : ℚ) / (R : ℚ)) ((b : ℚ) / (R : ℚ))

/-- The index-buffer entries of one grid row: each cell `(a, b)` contributes
the two triangles `(a,b) (a+1,b) (a,b+1)` and `(a+1,b) (a+1,b+1) (a,b+1)`
over the row-major vertex numbering of the `(R+1) × (R+1)` grid. -/
def rowIndices (R a : ℕ) : List ℕ :=
  (List.range R).foldr
    (fun b acc =>
      [a * (R + 1) + b, (a + 1) * (R + 1) + b, a * (R + 1) + b + 1,
       (a + 1) * (R + 1) + b, (a + 1) * (R + 1) + b + 1, a * (R + 1) + b + 1] ++ acc) []

/-- Modelled from the spec: the generated vertex/normal/index buffers of one
patch (`SurfaceMesh`): flat ordered vertex positions, matching ordered normals
and a triangle-list index sequence. -/
structure SurfaceMesh where
  vertices : List Vec3
  normals : List Vec3
  indices : List ℕ
deriving DecidableEq

/-- Modelled from the spec: the mesh `Patch::Tessellate` produces at
resolution `R`: row-major samples of positions and normals over the uniform
`(R+1) × (R+1)` grid plus the triangle-list index buffer. -/
def genMesh (R : ℕ) (P : Patch) : SurfaceMesh :=
  { vertices := (List.range (R + 1)).foldr (fun a acc => sampleRow P R a ++ acc) []
  , normals := (List.range (R + 1)).foldr (fun a acc => normalRow P R a ++ acc) []
  , indices := (List.range R).foldr (fun a acc => rowIndices R a ++ acc) [] }

/-- Modelled from the spec: a patch object: its 16 control points together with
its cached tessellated mesh. -/
structure PatchState where
  controlPoints : Patch
  mesh : SurfaceMesh
deriving DecidableEq

/-- Modelled from the spec: `Patch::Tessellate` at resolution `R` regenerates
the cached mesh from the current control points, fully replacing the buffers. -/
def Tessellate (R : ℕ) (s : PatchState) : PatchState :=
  { s with mesh := genMesh R s.controlPoints }

/-- The fixed tessellation resolution used for the teapot scenario. -/
def tessellationResolution : ℕ := 10

/-- Modelled from the spec: the error conditions of the spline-surface API. -/
inductive SplineError where
  | invalidIndex
deriving DecidableEq

/-- Modelled from the spec: `B_Spline`, an ordered collection of patches (each
with its cached mesh). -/
structure B_Spline where
  patches : List PatchState
deriving DecidableEq

/-- Modelled from the spec: `B_Spline::SetControlPoints` replaces the control
grid of patch `patchIndex` and synchronously re-tessellates exactly that patch;
an index outside `[0, patchCount)` fails with `InvalidIndex` and changes
nothing. -/
def SetControlPoints (sp : B_Spline) (patchIndex : ℕ) (P : Patch) :
    Except SplineError B_Spline :=
  if patchIndex < sp.patches.length then
    .ok ⟨sp.patches.set patchIndex ⟨P, genMesh tessellationResolution P⟩⟩
  else
    .error .invalidIndex

/-- The zero vector, used for concrete witness instances. -/
def zeroVec : Vec3 := ⟨0, 0, 0⟩

/-- A concrete all-zero patch, used for witness instances. -/
def zeroPatch : Patch :=
  ⟨zeroVec, zeroVec, zeroVec, zeroVec, zeroVec, zeroVec, zeroVec, zeroVec,
   zeroVec, zeroVec, zeroVec, zeroVec, zeroVec, zeroVec, zeroVec, zeroVec⟩

/-- A concrete two-patch spline surface, used for witness instances. -/
def sampleSpline : B_Spline :=
  ⟨[⟨teapotPatch 0, genMesh tessellationResolution (teapotPatch 0)⟩,
    ⟨teapotPatch 1, genMesh tessellationResolution (teapotPatch 1)⟩]⟩

/-- Scaled-integer 3-component vector: the rational model's coordinates carry a
fixed scale factor so that the exact computation runs on integers. -/
structure Vec3Z where
  x : ℤ
  y : ℤ
  z : ℤ
deriving DecidableEq

/-- Componentwise addition of scaled vectors. -/
def vaddZ (a b : Vec3Z) : Vec3Z := ⟨a.x + b.x, a.y + b.y, a.z + b.z⟩

/-- Componentwise subtraction of scaled vectors. -/
def vsubZ (a b : Vec3Z) : Vec3Z := ⟨a.x - b.x, a.y - b.y, a.z - b.z⟩

/-- Scalar multiplication of a scaled vector. -/
def vsmulZ (c : ℤ) (a : Vec3Z) : Vec3Z := ⟨c * a.x, c * a.y, c * a.z⟩

/-- Cross product of scaled vectors. -/
def vcrossZ (a b : Vec3Z) : Vec3Z :=
  ⟨a.y * b.z - a.z * b.y, a.z * b.x - a.x * b.z, a.x * b.y - a.y * b.x⟩

/-- Zero test for scaled vectors. -/
def isZeroVecZ (v : Vec3Z) : Bool := v.x == 0 && v.y == 0 && v.z == 0

/-- A patch whose control points carry integer coordinates (table values
scaled by 4000). -/
structure PatchZ where
  p00 : Vec3Z
  p01 : Vec3Z
  p02 : Vec3Z
  p03 : Vec3Z
  p10 : Vec3Z
  p11 : Vec3Z
  p12 : Vec3Z
  p13 : Vec3Z
  p20 : Vec3Z
  p21 : Vec3Z
  p22 : Vec3Z
  p23 : Vec3Z
  p30 : Vec3Z
  p31 : Vec3Z
  p32 : Vec3Z
  p33 : Vec3Z
deriving DecidableEq

/-- Integer Bernstein weight `1000 · B0(a/10) = (10-a)^3`. -/
def wt0 (a : ℤ) : ℤ := (10 - a) ^ 3

/-- Integer Bernstein weight `1000 · B1(a/10) = 3a(10-a)^2`. -/
def wt1 (a : ℤ) : ℤ := 3 * a * (10 - a) ^ 2

/-- Integer Bernstein weight `1000 · B2(a/10) = 3a^2(10-a)`. -/
def wt2 (a : ℤ) : ℤ := 3 * a ^ 2 * (10 - a)

/-- Integer Bernstein weight `1000 · B3(a/10) = a^3`. -/
def wt3 (a : ℤ) : ℤ := a ^ 3

/-- The Bezier surface position at `(a/10, b/10)` scaled by `4000 · 10^6`:
the integer double Bernstein sum over a scaled patch. -/
def bezierPositionZ (P : PatchZ) (a b : ℤ) : Vec3Z :=
  let bu0 := wt0 a
  let bu1 := wt1 a
  let bu2 := wt2 a
  let bu3 := wt3 a
  let bv0 := wt0 b
  let bv1 := wt1 b
  let bv2 := wt2 b
  let bv3 := wt3 b
  vaddZ (vaddZ (vaddZ (vaddZ (vsmulZ (bu0 * bv0) P.p00) (vsmulZ (bu0 * bv1) P.p01))
                      (vaddZ (vsmulZ (bu0 * bv2) P.p02) (vsmulZ (bu0 * bv3) P.p03)))
               (vaddZ (vaddZ (vsmulZ (bu1 * bv0) P.p10) (vsmulZ (bu1 * bv1) P.p11))
                      (vaddZ (vsmulZ (bu1 * bv2) P.p12) (vsmulZ (bu1 * bv3) P.p13))))
        (vaddZ (vaddZ (vaddZ (vsmulZ (bu2 * bv0) P.p20) (vsmulZ (bu2 * bv1) P.p21))
                      (vaddZ (vsmulZ (bu2 * bv2) P.p22) (vsmulZ (bu2 * bv3) P.p23)))
               (vaddZ (vaddZ (vsmulZ (bu3 * bv0) P.p30) (vsmulZ (bu3 * bv1) P.p31))
                      (vaddZ (vsmulZ (bu3 * bv2) P.p32) (vsmulZ (bu3 * bv3) P.p33))))

/-- Scaled chunk: `teapotTable0` with every entry multiplied by 4000 (exactly integral). -/
def teapotTableScaled0 : List ℤ := [
  5600, 9000, 0, 5350, 9525, 0, 5750, 9525, 0, 6000, 9000, 0,
  5600, 9000, 3136, 5350, 9525, 2996, 5750, 9525, 3220, 6000, 9000, 3360,
  3136, 9000, 5600, 2996, 9525, 5350, 3220, 9525, 5750, 3360, 9000, 6000,
  0, 9000, 5600, 0, 9525, 5350, 0, 9525, 5750, 0, 9000, 6000]

/-- Scaled chunk: `teapotTable1` with every entry multiplied by 4000 (exactly integral). -/
def teapotTableScaled1 : List ℤ := [
  0, 9000, 5600, 0, 9525, 5350, 0, 9525, 5750, 0, 9000, 6000,
  -3136, 9000, 5600, -2996, 9525, 5350, -3220, 9525, 5750, -3360, 9000, 6000,
  -5600, 9000, 3136, -5350, 9525, 2996, -5750, 9525, 3220, -6000, 9000, 3360,
  -5600, 9000, 0, -5350, 9525, 0, -5750, 9525, 0, -6000, 9000, 0]

/-- Scaled chunk: `teapotTable2` with every entry multiplied by 4000 (exactly integral). -/
def teapotTableScaled2 : List ℤ := [
  -5600, 9000, 0, -5350, 9525, 0, -5750, 9525, 0, -6000, 9000, 0,
  -5600, 9000, -3136, -5350, 9525, -2996, -5750, 9525, -3220, -6000, 9000, -3360,
  -3136, 9000, -5600, -2996, 9525, -5350, -3220, 9525, -5750, -3360, 9000, -6000,
  0, 9000, -5600, 0, 9525, -5350, 0, 9525, -5750, 0, 9000, -6000]

/-- Scaled chunk: `teapotTable3` with every entry multiplied by 4000 (exactly integral). -/
def teapotTableScaled3 : List ℤ := [
  0, 9000, -5600, 0, 9525, -5350, 0, 9525, -5750, 0, 9000, -6000,
  3136, 9000, -5600, 2996, 9525, -5350, 3220, 9525, -5750, 3360, 9000, -6000,
  5600, 9000, -3136, 5350, 9525, -2996, 5750, 9525, -3220, 6000, 9000, -3360,
  5600, 9000, 0, 5350, 9525, 0, 5750, 9525, 0, 6000, 9000, 0]

/-- Scaled chunk: `teapotTable4` with every entry multiplied by 4000 (exactly integral). -/
def teapotTableScaled4 : List ℤ := [
  6000, 9000, 0, 7000, 6900, 0, 8000, 4800, 0, 8000, 3000, 0,
  6000, 9000, 3360, 7000, 6900, 3920, 8000, 4800, 4480, 8000, 3000, 4480,
  3360, 9000, 6000, 3920, 6900, 7000, 4480, 4800, 8000, 4480, 3000, 8000,
  0, 9000, 6000, 0, 6900, 7000, 0, 4800, 8000, 0, 3000, 8000]

/-- Scaled chunk: `teapotTable5` with every entry multiplied by 4000 (exactly integral). -/
def teapotTableScaled5 : List ℤ := [
  0, 9000, 6000, 0, 6900, 7000, 0, 4800, 8000, 0, 3000, 8000,
  -3360, 9000, 6000, -3920, 6900, 7000, -4480, 4800, 8000, -4480, 3000, 8000,
  -6000, 9000, 3360, -7000, 6900, 3920, -8000, 4800, 4480, -8000, 3000, 4480,
  -6000, 9000, 0, -7000, 6900, 0, -8000, 4800, 0, -8000, 3000, 0]

/-- Scaled chunk: `teapotTable6` with every entry multiplied by 4000 (exactly integral). -/
def teapotTableScaled6 : List ℤ := [
  -6000, 9000, 0, -7000, 6900, 0, -8000, 4800, 0, -8000, 3000, 0,
  -6000, 9000, -3360, -7000, 6900, -3920, -8000, 4800, -4480, -8000, 3000, -4480,
  -3360, 9000, -6000, -3920, 6900, -7000, -4480, 4800, -8000, -4480, 3000, -8000,
  0, 9000, -6000, 0, 6900, -7000, 0, 4800, -8000, 0, 3000, -8000]

/-- Scaled chunk: `teapotTable7` with every entry multiplied by 4000 (exactly integral). -/
def teapotTableScaled7 : List ℤ := [
  0, 9000, -6000, 0, 6900, -7000, 0, 4800, -8000, 0, 3000, -8000,
  3360, 9000, -6000, 3920, 6900, -7000, 4480, 4800, -8000, 4480, 3000, -8000,
  6000, 9000, -3360, 7000, 6900, -3920, 8000, 4800, -4480, 8000, 3000, -4480,
  6000, 9000, 0, 7000, 6900, 0, 8000, 4800, 0, 8000, 3000, 0]

/-- Scaled chunk: `teapotTable8` with every entry multiplied by 4000 (exactly integral). -/
def teapotTableScaled8 : List ℤ := [
  8000, 3000, 0, 8000, 1200, 0, 6000, 300, 0, 6000, 0, 0,
  8000, 3000, 4480, 8000, 1200, 4480, 6000, 300, 3360, 6000, 0, 3360,
  4480, 3000, 8000, 4480, 1200, 8000, 3360, 300, 6000, 3360, 0, 6000,
  0, 3000, 8000, 0, 1200, 8000, 0, 300, 6000, 0, 0, 6000]

/-- Scaled chunk: `teapotTable9` with every entry multiplied by 4000 (exactly integral). -/
def teapotTableScaled9 : List ℤ := [
  0, 3000, 8000, 0, 1200, 8000, 0, 300, 6000, 0, 0, 6000,
  -4480, 3000, 8000, -4480, 1200, 8000, -3360, 300, 6000, -3360, 0, 6000,
  -8000, 3000, 4480, -8000, 1200, 4480, -6000, 300, 3360, -6000, 0, 3360,
  -8000, 3000, 0, -8000, 1200, 0, -6000, 300, 0, -6000, 0, 0]

/-- Scaled chunk: `teapotTable10` with every entry multiplied by 4000 (exactly integral). -/
def teapotTableScaled10 : List ℤ := [
  -8000, 3000, 0, -8000, 1200, 0, -6000, 300, 0, -6000, 0, 0,
  -8000, 3000, -4480, -8000, 1200, -4480, -6000, 300, -3360, -6000, 0, -3360,
  -4480, 3000, -8000, -4480, 1200, -8000, -3360, 300, -6000, -3360, 0, -6000,
  0, 3000, -8000, 0, 1200, -8000, 0, 300, -6000, 0, 0, -6000]

/-- Scaled chunk: `teapotTable11` with every entry multiplied by 4000 (exactly integral). -/
def teapotTableScaled11 : List ℤ := [
  0, 3000, -8000, 0, 1200, -8000, 0, 300, -6000, 0, 0, -6000,
  4480, 3000, -8000, 4480, 1200, -8000, 3360, 300, -6000, 3360, 0, -6000,
  8000, 3000, -4480, 8000, 1200, -4480, 6000, 300, -3360, 6000, 0, -3360,
  8000, 3000, 0, 8000, 1200, 0, 6000, 300, 0, 6000, 0, 0]

/-- Scaled chunk: `teapotTable12` with every entry multiplied by 4000 (exactly integral). -/
def teapotTableScaled12 : List ℤ := [
  -6400, 7500, 0, -9200, 7500, 0, -10800, 7500, 0, -10800, 6600, 0,
  -6400, 7500, 1200, -9200, 7500, 1200, -10800, 7500, 1200, -10800, 6600, 1200,
  -6000, 8400, 1200, -10000, 8400, 1200, -12000, 8400, 1200, -12000, 6600, 1200,
  -6000, 8400, 0, -10000, 8400, 0, -12000, 8400, 0, -12000, 6600, 0]

/-- Scaled chunk: `teapotTable13` with every entry multiplied by 4000 (exactly integral). -/
def teapotTableScaled13 : List ℤ := [
  -6000, 8400, 0, -10000, 8400, 0, -12000, 8400, 0, -12000, 6600, 0,
  -6000, 8400, -1200, -10000, 8400, -1200, -12000, 8400, -1200, -12000, 6600, -1200,
  -6400, 7500, -1200, -9200, 7500, -1200, -10800, 7500, -1200, -10800, 6600, -1200,
  -6400, 7500, 0, -9200, 7500, 0, -10800, 7500, 0, -10800, 6600, 0]

/-- Scaled chunk: `teapotTable14` with every entry multiplied by 4000 (exactly integral). -/
def teapotTableScaled14 : List ℤ := [
  -10800, 6600, 0, -10800, 5700, 0, -10000, 3900, 0, -8000, 3000, 0,
  -10800, 6600, 1200, -10800, 5700, 1200, -10000, 3900, 1200, -8000, 3000, 1200,
  -12000, 6600, 1200, -12000, 4800, 1200, -10600, 3150, 1200, -7600, 1800, 1200,
  -12000, 6600, 0, -12000, 4800, 0, -10600, 3150, 0, -7600, 1800, 0]

/-- Scaled chunk: `teapotTable15` with every entry multiplied by 4000 (exactly integral). -/
def teapotTableScaled15 : List ℤ := [
  -12000, 6600, 0, -12000, 4800, 0, -10600, 3150, 0, -7600, 1800, 0,
  -12000, 6600, -1200, -12000, 4800, -1200, -10600, 3150, -1200, -7600, 1800, -1200,
  -10800, 6600, -1200, -10800, 5700, -1200, -10000, 3900, -1200, -8000, 3000, -1200,
  -10800, 6600, 0, -10800, 5700, 0, -10000, 3900, 0, -8000, 3000, 0]

/-- Scaled chunk: `teapotTable16` with every entry multiplied by 4000 (exactly integral). -/
def teapotTableScaled16 : List ℤ := [
  6800, 5100, 0, 10400, 5100, 0, 9200, 7800, 0, 10800, 9000, 0,
  6800, 5100, 2640, 10400, 5100, 2640, 9200, 7800, 1000, 10800, 9000, 1000,
  6800, 1800, 2640, 12400, 2700, 2640, 9600, 7500, 1000, 13200, 9000, 1000,
  6800, 1800, 0, 12400, 2700, 0, 9600, 7500, 0, 13200, 9000, 0]

/-- Scaled chunk: `teapotTable17` with every entry multiplied by 4000 (exactly integral). -/
def teapotTableScaled17 : List ℤ := [
  6800, 1800, 0, 12400, 2700, 0, 9600, 7500, 0, 13200, 9000, 0,
  6800, 1800, -2640, 12400, 2700, -2640, 9600, 7500, -1000, 13200, 9000, -1000,
  6800, 5100, -2640, 10400, 5100, -2640, 9200, 7800, -1000, 10800, 9000, -1000,
  6800, 5100, 0, 10400, 5100, 0, 9200, 7800, 0, 10800, 9000, 0]

/-- Scaled chunk: `teapotTable18` with every entry multiplied by 4000 (exactly integral). -/
def teapotTableScaled18 : List ℤ := [
  10800, 9000, 0, 11200, 9300, 0, 11600, 9300, 0, 11200, 9000, 0,
  10800, 9000, 1000, 11200, 9300, 1000, 11600, 9300, 600, 11200, 9000, 600,
  13200, 9000, 1000, 14100, 9375, 1000, 13800, 9450, 600, 12800, 9000, 600,
  13200, 9000, 0, 14100, 9375, 0, 13800, 9450, 0, 12800, 9000, 0]

/-- Scaled chunk: `teapotTable19` with every entry multiplied by 4000 (exactly integral). -/
def teapotTableScaled19 : List ℤ := [
  13200, 9000, 0, 14100, 9375, 0, 13800, 9450, 0, 12800, 9000, 0,
  13200, 9000, -1000, 14100, 9375, -1000, 13800, 9450, -600, 12800, 9000, -600,
  10800, 9000, -1000, 11200, 9300, -1000, 11600, 9300, -600, 11200, 9000, -600,
  10800, 9000, 0, 11200, 9300, 0, 11600, 9300, 0, 11200, 9000, 0]

/-- Scaled chunk: `teapotTable20` with every entry multiplied by 4000 (exactly integral). -/
def teapotTableScaled20 : List ℤ := [
  0, 12000, 0, 3200, 12000, 0, 0, 10800, 0, 800, 10200, 0,
  0, 12000, 8, 3200, 12000, 1800, 0, 10800, 0, 800, 10200, 448,
  8, 12000, 0, 1800, 12000, 3200, 0, 10800, 0, 448, 10200, 800,
  0, 12000, 0, 0, 12000, 3200, 0, 10800, 0, 0, 10200, 800]

/-- Scaled chunk: `teapotTable21` with every entry multiplied by 4000 (exactly integral). -/
def teapotTableScaled21 : List ℤ := [
  0, 12000, 0, 0, 12000, 3200, 0, 10800, 0, 0, 10200, 800,
  -8, 12000, 0, -1800, 12000, 3200, 0, 10800, 0, -448, 10200, 800,
  0, 12000, 8, -3200, 12000, 1800, 0, 10800, 0, -800, 10200, 448,
  0, 12000, 0, -3200, 12000, 0, 0, 10800, 0, -800, 10200, 0]

/-- Scaled chunk: `teapotTable22` with every entry multiplied by 4000 (exactly integral). -/
def teapotTableScaled22 : List ℤ := [
  0, 12000, 0, -3200, 12000, 0, 0, 10800, 0, -800, 10200, 0,
  0, 12000, -8, -3200, 12000, -1800, 0, 10800, 0, -800, 10200, -448,
  -8, 12000, 0, -1800, 12000, -3200, 0, 10800, 0, -448, 10200, -800,
  0, 12000, 0, 0, 12000, -3200, 0, 10800, 0, 0, 10200, -800]

/-- Scaled chunk: `teapotTable23` with every entry multiplied by 4000 (exactly integral). -/
def teapotTableScaled23 : List ℤ := [
  0, 12000, 0, 0, 12000, -3200, 0, 10800, 0, 0, 10200, -800,
  8, 12000, 0, 1800, 12000, -3200, 0, 10800, 0, 448, 10200, -800,
  0, 12000, -8, 3200, 12000, -1800, 0, 10800, 0, 800, 10200, -448,
  0, 12000, 0, 3200, 12000, 0, 0, 10800, 0, 800, 10200, 0]

/-- Scaled chunk: `teapotTable24` with every entry multiplied by 4000 (exactly integral). -/
def teapotTableScaled24 : List ℤ := [
  800, 10200, 0, 1600, 9600, 0, 5200, 9600, 0, 5200, 9000, 0,
  800, 10200, 448, 1600, 9600, 896, 5200, 9600, 2912, 5200, 9000, 2912,
  448, 10200, 800, 896, 9600, 1600, 2912, 9600, 5200, 2912, 9000, 5200,
  0, 10200, 800, 0, 9600, 1600, 0, 9600, 5200, 0, 9000, 5200]

/-- Scaled chunk: `teapotTable25` with every entry multiplied by 4000 (exactly integral). -/
def teapotTableScaled25 : List ℤ := [
  0, 10200, 800, 0, 9600, 1600, 0, 9600, 5200, 0, 9000, 5200,
  -448, 10200, 800, -896, 9600, 1600, -2912, 9600, 5200, -2912, 9000, 5200,
  -800, 10200, 448, -1600, 9600, 896, -5200, 9600, 2912, -5200, 9000, 2912,
  -800, 10200, 0, -1600, 9600, 0, -5200, 9600, 0, -5200, 9000, 0]

/-- Scaled chunk: `teapotTable26` with every entry multiplied by 4000 (exactly integral). -/
def teapotTableScaled26 : List ℤ := [
  -800, 10200, 0, -1600, 9600, 0, -5200, 9600, 0, -5200, 9000, 0,
  -800, 10200, -448, -1600, 9600, -896, -5200, 9600, -2912, -5200, 9000, -2912,
  -448, 10200, -800, -896, 9600, -1600, -2912, 9600, -5200, -2912, 9000, -5200,
  0, 10200, -800, 0, 9600, -1600, 0, 9600, -5200, 0, 9000, -5200]

/-- Scaled chunk: `teapotTable27` with every entry multiplied by 4000 (exactly integral). -/
def teapotTableScaled27 : List ℤ := [
  0, 10200, -800, 0, 9600, -1600, 0, 9600, -5200, 0, 9000, -5200,
  448, 10200, -800, 896, 9600, -1600, 2912, 9600, -5200, 2912, 9000, -5200,
  800, 10200, -448, 1600, 9600, -896, 5200, 9600, -2912, 5200, 9000, -2912,
  800, 10200, 0, 1600, 9600, 0, 5200, 9600, 0, 5200, 9000, 0]

/-- The scaled per-patch chunks as a list, mirroring `teapotTables`. -/
def teapotTablesScaled : List (List ℤ) :=
  [teapotTableScaled0, teapotTableScaled1, teapotTableScaled2, teapotTableScaled3, teapotTableScaled4, teapotTableScaled5, teapotTableScaled6,
   teapotTableScaled7, teapotTableScaled8, teapotTableScaled9, teapotTableScaled10, teapotTableScaled11, teapotTableScaled12, teapotTableScaled13,
   teapotTableScaled14, teapotTableScaled15, teapotTableScaled16, teapotTableScaled17, teapotTableScaled18, teapotTableScaled19, teapotTableScaled20,
   teapotTableScaled21, teapotTableScaled22, teapotTableScaled23, teapotTableScaled24, teapotTableScaled25, teapotTableScaled26, teapotTableScaled27]
/-- A scaled patch built from one 48-entry scaled chunk. -/
def patchOfChunkZ (l : List ℤ) : PatchZ :=
  ⟨⟨l.getD 0 0, l.getD 1 0, l.getD 2 0⟩, ⟨l.getD 3 0, l.getD 4 0, l.getD 5 0⟩,
   ⟨l.getD 6 0, l.getD 7 0, l.getD 8 0⟩, ⟨l.getD 9 0, l.getD 10 0, l.getD 11 0⟩,
   ⟨l.getD 12 0, l.getD 13 0, l.getD 14 0⟩, ⟨l.getD 15 0, l.getD 16 0, l.getD 17 0⟩,
   ⟨l.getD 18 0, l.getD 19 0, l.getD 20 0⟩, ⟨l.getD 21 0, l.getD 22 0, l.getD 23 0⟩,
   ⟨l.getD 24 0, l.getD 25 0, l.getD 26 0⟩, ⟨l.getD 27 0, l.getD 28 0, l.getD 29 0⟩,
   ⟨l.getD 30 0, l.getD 31 0, l.getD 32 0⟩, ⟨l.getD 33 0, l.getD 34 0, l.getD 35 0⟩,
   ⟨l.getD 36 0, l.getD 37 0, l.getD 38 0⟩, ⟨l.getD 39 0, l.getD 40 0, l.getD 41 0⟩,
   ⟨l.getD 42 0, l.getD 43 0, l.getD 44 0⟩, ⟨l.getD 45 0, l.getD 46 0, l.getD 47 0⟩⟩

/-- One row of scaled tessellation samples at `u = a/10`. -/
def sampleRowZ (P : PatchZ) (a : ℕ) : List Vec3Z :=
  (List.range 11).map fun b : ℕ => bezierPositionZ P (a : ℤ) (b : ℤ)

/-- The scaled triangles of one strip between two adjacent sample rows. -/
def stripTrianglesZ : List Vec3Z → List Vec3Z → List (Vec3Z × Vec3Z × Vec3Z)
  | A :: C :: r1, B :: D :: r2 =>
      (A, B, C) :: (B, D, C) :: stripTrianglesZ (C :: r1) (D :: r2)
  | _, _ => []

/-- The scaled triangle list of one patch at resolution 10. -/
def patchTrianglesZ (P : PatchZ) : List (Vec3Z × Vec3Z × Vec3Z) :=
  (List.range 10).foldr
    (fun a acc => stripTrianglesZ (sampleRowZ P a) (sampleRowZ P (a + 1)) ++ acc) []

/-- Degeneracy test on scaled triangles. -/
def triangleDegenerateZ (T : Vec3Z × Vec3Z × Vec3Z) : Bool :=
  isZeroVecZ (vcrossZ (vsubZ T.2.1 T.1) (vsubZ T.2.2 T.1))

/-- Combined scaled check for one patch chunk: exactly 200 triangles and none
degenerate. -/
def patchCheckZ (l : List ℤ) : Bool :=
  let ts := patchTrianglesZ (patchOfChunkZ l)
  ts.length == 200 && ts.all fun T => !(triangleDegenerateZ T)

/-- The scale factor taking a scaled table entry back to its rational value. -/
def ratScale (z : ℤ) : ℚ := (z : ℚ) / 4000

/-- A scaled control point mapped back to its rational control point. -/
def ctrlCast (v : Vec3Z) : Vec3 := ⟨ratScale v.x, ratScale v.y, ratScale v.z⟩

/-- A scaled patch mapped back to its rational patch. -/
def castPatch (P : PatchZ) : Patch :=
  ⟨ctrlCast P.p00, ctrlCast P.p01, ctrlCast P.p02, ctrlCast P.p03,
   ctrlCast P.p10, ctrlCast P.p11, ctrlCast P.p12, ctrlCast P.p13,
   ctrlCast P.p20, ctrlCast P.p21, ctrlCast P.p22, ctrlCast P.p23,
   ctrlCast P.p30, ctrlCast P.p31, ctrlCast P.p32, ctrlCast P.p33⟩

/-- The inverse of the position scale `4000 · 10^6`. -/
def invScale : ℚ := 1 / 4000000000

/-- The plain rational image of a scaled vector. -/
def toQ (v : Vec3Z) : Vec3 := ⟨(v.x : ℚ), (v.y : ℚ), (v.z : ℚ)⟩

/-- A scaled sample position mapped back to its rational position. -/
def posCast (v : Vec3Z) : Vec3 := vsmul invScale (toQ v)

/-- A scaled triangle mapped back to its rational triangle. -/
def triCast (T : Vec3Z × Vec3Z × Vec3Z) : Vec3 × Vec3 × Vec3 :=
  (posCast T.1, posCast T.2.1, posCast T.2.2)

/-- The scaled triangle list of the whole teapot: all 28 patch chunks. -/
def teapotTrianglesZ : List (Vec3Z × Vec3Z × Vec3Z) :=
  patchTrianglesZ (patchOfChunkZ teapotTableScaled0) ++
  patchTrianglesZ (patchOfChunkZ teapotTableScaled1) ++
  patchTrianglesZ (patchOfChunkZ teapotTableScaled2) ++
  patchTrianglesZ (patchOfChunkZ teapotTableScaled3) ++
  patchTrianglesZ (patchOfChunkZ teapotTableScaled4) ++
  patchTrianglesZ (patchOfChunkZ teapotTableScaled5) ++
  patchTrianglesZ (patchOfChunkZ teapotTableScaled6) ++
  patchTrianglesZ (patchOfChunkZ teapotTableScaled7) ++
  patchTrianglesZ (patchOfChunkZ teapotTableScaled8) ++
  patchTrianglesZ (patchOfChunkZ teapotTableScaled9) ++
  patchTrianglesZ (patchOfChunkZ teapotTableScaled10) ++
  patchTrianglesZ (patchOfChunkZ teapotTableScaled11) ++
  patchTrianglesZ (patchOfChunkZ teapotTableScaled12) ++
  patchTrianglesZ (patchOfChunkZ teapotTableScaled13) ++
  patchTrianglesZ (patchOfChunkZ teapotTableScaled14) ++
  patchTrianglesZ (patchOfChunkZ teapotTableScaled15) ++
  patchTrianglesZ (patchOfChunkZ teapotTableScaled16) ++
  patchTrianglesZ (patchOfChunkZ teapotTableScaled17) ++
  patchTrianglesZ (patchOfChunkZ teapotTableScaled18) ++
  patchTrianglesZ (patchOfChunkZ teapotTableScaled19) ++
  patchTrianglesZ (patchOfChunkZ teapotTableScaled20) ++
  patchTrianglesZ (patchOfChunkZ teapotTableScaled21) ++
  patchTrianglesZ (patchOfChunkZ teapotTableScaled22) ++
  patchTrianglesZ (patchOfChunkZ teapotTableScaled23) ++
  patchTrianglesZ (patchOfChunkZ teapotTableScaled24) ++
  patchTrianglesZ (patchOfChunkZ teapotTableScaled25) ++
  patchTrianglesZ (patchOfChunkZ teapotTableScaled26) ++
  patchTrianglesZ (patchOfChunkZ teapotTableScaled27)

/-- A 3-component real vector, for the analytic (derivative / normalization)
model. -/
structure Vec3R where
  x : ℝ
  y : ℝ
  z : ℝ

/-- Componentwise addition. -/
noncomputable def vaddR (a b : Vec3R) : Vec3R := ⟨a.x + b.x, a.y + b.y, a.z + b.z⟩

/-- Componentwise subtraction. -/
noncomputable def vsubR (a b : Vec3R) : Vec3R := ⟨a.x - b.x, a.y - b.y, a.z - b.z⟩

/-- Scalar multiplication. -/
noncomputable def vsmulR (c : ℝ) (a : Vec3R) : Vec3R := ⟨c * a.x, c * a.y, c * a.z⟩

/-- Cross product. -/
noncomputable def vcrossR (a b : Vec3R) : Vec3R :=
  ⟨a.y * b.z - a.z * b.y, a.z * b.x - a.x * b.z, a.x * b.y - a.y * b.x⟩

/-- A real 4×4 control grid. -/
structure PatchR where
  p00 : Vec3R
  p01 : Vec3R
  p02 : Vec3R
  p03 : Vec3R
  p10 : Vec3R
  p11 : Vec3R
  p12 : Vec3R
  p13 : Vec3R
  p20 : Vec3R
  p21 : Vec3R
  p22 : Vec3R
  p23 : Vec3R
  p30 : Vec3R
  p31 : Vec3R
  p32 : Vec3R
  p33 : Vec3R

/-- The scalar cubic Bezier blend `(1-t)³a + 3t(1-t)²b + 3t²(1-t)c + t³d`. -/
noncomputable def cubicScalar (a b c d t : ℝ) : ℝ :=
  (1 - t) ^ 3 * a + 3 * t * (1 - t) ^ 2 * b + 3 * t ^ 2 * (1 - t) * c + t ^ 3 * d

/-- The scalar Bezier tangent: the quadratic Bernstein blend of the control
differences, scaled by 3 (the formula in the `main.cpp` header comment). -/
noncomputable def cubicScalarTangent (a b c d t : ℝ) : ℝ :=
  3 * ((1 - t) ^ 2 * (b - a) + 2 * t * (1 - t) * (c - b) + t ^ 2 * (d - c))

/-- The real cubic Bezier curve through four control points. -/
noncomputable def cubicPointR (q0 q1 q2 q3 : Vec3R) (t : ℝ) : Vec3R :=
  ⟨cubicScalar q0.x q1.x q2.x q3.x t,
   cubicScalar q0.y q1.y q2.y q3.y t,
   cubicScalar q0.z q1.z q2.z q3.z t⟩

/-- The real cubic Bezier tangent through four control points. -/
noncomputable def cubicTangentR (q0 q1 q2 q3 : Vec3R) (t : ℝ) : Vec3R :=
  ⟨cubicScalarTangent q0.x q1.x q2.x q3.x t,
   cubicScalarTangent q0.y q1.y q2.y q3.y t,
   cubicScalarTangent q0.z q1.z q2.z q3.z t⟩

/-- Modelled from the spec: the real surface position: reduce each row at `v`,
then evaluate the resulting cubic at `u`. -/
noncomputable def bezierPositionR (P : PatchR) (u v : ℝ) : Vec3R :=
  cubicPointR (cubicPointR P.p00 P.p01 P.p02 P.p03 v)
              (cubicPointR P.p10 P.p11 P.p12 P.p13 v)
              (cubicPointR P.p20 P.p21 P.p22 P.p23 v)
              (cubicPointR P.p30 P.p31 P.p32 P.p33 v) u

/-- Modelled from the spec: the real u-direction surface tangent. -/
noncomputable def tangentUR (P : PatchR) (u v : ℝ) : Vec3R :=
  cubicTangentR (cubicPointR P.p00 P.p01 P.p02 P.p03 v)
                (cubicPointR P.p10 P.p11 P.p12 P.p13 v)
                (cubicPointR P.p20 P.p21 P.p22 P.p23 v)
                (cubicPointR P.p30 P.p31 P.p32 P.p33 v) u

/-- Modelled from the spec: the real v-direction surface tangent. -/
noncomputable def tangentVR (P : PatchR) (u v : ℝ) : Vec3R :=
  cubicTangentR (cubicPointR P.p00 P.p10 P.p20 P.p30 u)
                (cubicPointR P.p01 P.p11 P.p21 P.p31 u)
                (cubicPointR P.p02 P.p12 P.p22 P.p32 u)
                (cubicPointR P.p03 P.p13 P.p23 P.p33 u) v

/-- The Euclidean length of a real vector. -/
noncomputable def norm3 (v : Vec3R) : ℝ := Real.sqrt (v.x ^ 2 + v.y ^ 2 + v.z ^ 2)

/-- Modelled from the spec: normalization with the documented degenerate-case
fallback: a vector of near-zero length (threshold `1e-6`) is replaced by an
arbitrary unit vector instead of dividing by (almost) zero, so no NaN can
arise. -/
noncomputable def normalizeR (v : Vec3R) : Vec3R :=
  if norm3 v < 1e-6 then ⟨0, 1, 0⟩ else vsmulR (1 / norm3 v) v

/-- Clamping of a parameter to `[0,1]`, the spec's treatment of out-of-range
input. -/
noncomputable def clamp01 (t : ℝ) : ℝ := max 0 (min 1 t)

/-- Modelled from the spec: `Evaluate(u, v)`: the surface position and the unit
surface normal `normalize(Tangent_u × Tangent_v)` at the clamped parameters. -/
noncomputable def Evaluate (P : PatchR) (u v : ℝ) : Vec3R × Vec3R :=
  (bezierPositionR P (clamp01 u) (clamp01 v),
   normalizeR (vcrossR (tangentUR P (clamp01 u) (clamp01 v))
                       (tangentVR P (clamp01 u) (clamp01 v))))

/-- A concrete all-zero real patch, used for witness instances (all tangents
degenerate, exercising the fallback). -/
noncomputable def zeroPatchR : PatchR :=
  ⟨⟨0, 0, 0⟩, ⟨0, 0, 0⟩, ⟨0, 0, 0⟩, ⟨0, 0, 0⟩, ⟨0, 0, 0⟩, ⟨0, 0, 0⟩, ⟨0, 0, 0⟩, ⟨0, 0, 0⟩,
   ⟨0, 0, 0⟩, ⟨0, 0, 0⟩, ⟨0, 0, 0⟩, ⟨0, 0, 0⟩, ⟨0, 0, 0⟩, ⟨0, 0, 0⟩, ⟨0, 0, 0⟩, ⟨0, 0, 0⟩⟩

/-- A quaternion over the reals, the model of `glm::quat`
(components `w + xi + yj + zk`). -/
structure Quat where
  w : ℝ
  x : ℝ
  y : ℝ
  z : ℝ

/-- The quaternion norm. -/
noncomputable def qnorm (q : Quat) : ℝ :=
  Real.sqrt (q.w ^ 2 + q.x ^ 2 + q.y ^ 2 + q.z ^ 2)

/-- The Hamilton product of two quaternions. -/
noncomputable def qmul (a b : Quat) : Quat :=
  ⟨a.w * b.w - a.x * b.x - a.y * b.y - a.z * b.z,
   a.w * b.x + a.x * b.w + a.y * b.z - a.z * b.y,
   a.w * b.y - a.x * b.z + a.y * b.w + a.z * b.x,
   a.w * b.z + a.x * b.y - a.y * b.x + a.z * b.w⟩

/-- Modelled from the spec: per-step renormalization of the orientation; a
near-zero quaternion (threshold `1e-6`) falls back to the identity orientation
instead of dividing by (almost) zero. -/
noncomputable def qnormalize (q : Quat) : Quat :=
  if qnorm q < 1e-6 then ⟨1, 0, 0, 0⟩
  else ⟨q.w / qnorm q, q.x / qnorm q, q.y / qnorm q, q.z / qnorm q⟩

/-- Modelled from the spec: one `Update(dt)` step on the orientation: the
frame's delta rotation `dq` (built by the animation driver from the angular
velocity and the elapsed time) is composed onto the current orientation and the
result is renormalized. -/
noncomputable def UpdateOrientation (dq q : Quat) : Quat := qnormalize (qmul dq q)

/-- The orientation after a sequence of frame delta rotations. -/
noncomputable def runUpdates (q : Quat) (dqs : List Quat) : Quat :=
  dqs.foldl (fun acc dq => UpdateOrientation dq acc) q

/-- Model of `glm::angleAxis`: the quaternion of a rotation by `theta` about the given
axis (modelled from the GLM library, which is outside the repository). -/
noncomputable def angleAxis (theta ax ay az : ℝ) : Quat :=
  ⟨Real.cos (theta / 2), ax * Real.sin (theta / 2),
   ay * Real.sin (theta / 2), az * Real.sin (theta / 2)⟩

/-- The per-frame rotation angle `45 * rightKey - 45 * leftKey` computed by
`step` in `main.cpp` (`rightKey`/`leftKey` are the key states, 0 or 1). -/
noncomputable def dThetaOf (rightKey leftKey : ℝ) : ℝ := 45 * rightKey - 45 * leftKey

/-- The angular velocity `step` assigns each frame:
`glm::angleAxis(dTheta, glm::vec3(0, 1, 0))`. -/
noncomputable def stepAngularVelocity (rightKey leftKey : ℝ) : Quat :=
  angleAxis (dThetaOf rightKey leftKey) 0 1 0

/-- The model of one argument-evaluation order of the 48 chained `k++`
increments in one `SetControlPoints` call of `generateTeapot`: a permutation
`pi` where `pi s` is the evaluation time of syntactic slot `s`; slot `s` then
reads `teapotControlPoints[48*i + pi s]`. -/
def slotRead (i : ℕ) (pi : Equiv.Perm (Fin 48)) (s : Fin 48) : ℚ :=
  tableEntry (48 * i + (pi s : ℕ))

/-- The patch `generateTeapot` hands to `SetControlPoints` for patch `i` when
the 48 `k++` arguments are evaluated in the order `pi`. -/
def loadPatchWithOrder (i : ℕ) (pi : Equiv.Perm (Fin 48)) : Patch :=
  ⟨⟨slotRead i pi 0, slotRead i pi 1, slotRead i pi 2⟩,
   ⟨slotRead i pi 3, slotRead i pi 4, slotRead i pi 5⟩,
   ⟨slotRead i pi 6, slotRead i pi 7, slotRead i pi 8⟩,
   ⟨slotRead i pi 9, slotRead i pi 10, slotRead i pi 11⟩,
   ⟨slotRead i pi 12, slotRead i pi 13, slotRead i pi 14⟩,
   ⟨slotRead i pi 15, slotRead i pi 16, slotRead i pi 17⟩,
   ⟨slotRead i pi 18, slotRead i pi 19, slotRead i pi 20⟩,
   ⟨slotRead i pi 21, slotRead i pi 22, slotRead i pi 23⟩,
   ⟨slotRead i pi 24, slotRead i pi 25, slotRead i pi 26⟩,
   ⟨slotRead i pi 27, slotRead i pi 28, slotRead i pi 29⟩,
   ⟨slotRead i pi 30, slotRead i pi 31, slotRead i pi 32⟩,
   ⟨slotRead i pi 33, slotRead i pi 34, slotRead i pi 35⟩,
   ⟨slotRead i pi 36, slotRead i pi 37, slotRead i pi 38⟩,
   ⟨slotRead i pi 39, slotRead i pi 40, slotRead i pi 41⟩,
   ⟨slotRead i pi 42, slotRead i pi 43, slotRead i pi 44⟩,
   ⟨slotRead i pi 45, slotRead i pi 46, slotRead i pi 47⟩⟩


/-! ## Transport lemmas: scaled integer computation to the rational model -/

/-- Reading with default 0 commutes with mapping `ratScale` over an optional
entry. -/
theorem optionScale (o : Option ℤ) :
    (Option.map ratScale o).getD 0 = ratScale (o.getD 0) := by
  cases o <;> simp [ratScale]

/-- Flat access into a concatenation of uniform-width chunks is access into the
selected chunk. -/
theorem flatten_getD_chunk (w : ℕ) :
    ∀ (cs : List (List ℚ)) (i k : ℕ), (∀ c ∈ cs, c.length = w) → k < w →
      cs.flatten.getD (w * i + k) 0 = (cs.getD i []).getD k 0 := by
  intro cs
  induction cs with
  | nil => intro i k _ _; simp [List.getD]
  | cons c cs ih =>
    intro i k hlen hk
    have hcw : c.length = w := hlen c (List.mem_cons_self c cs)
    cases i with
    | zero =>
      simp only [Nat.mul_zero, Nat.zero_add, List.flatten_cons, List.getD_eq_getElem?_getD]
      rw [List.getElem?_append_left (by omega)]
      simp [List.getD_eq_getElem?_getD]
    | succ i =>
      have harith : w * (i + 1) + k = c.length + (w * i + k) := by rw [hcw]; ring
      simp only [List.flatten_cons, List.getD_eq_getElem?_getD, harith]
      rw [List.getElem?_append_right (by omega)]
      have := ih i k (fun d hd => hlen d (List.mem_cons_of_mem c hd)) hk
      simp only [List.getD_eq_getElem?_getD] at this
      simpa using this

/-- The flat table is the concatenation of the 28 per-patch chunks. -/
theorem tableFlatten : teapotControlPoints = teapotTables.flatten := by
  simp only [teapotControlPoints, teapotTables, List.flatten_cons, List.flatten_nil,
    List.append_nil, List.append_assoc]

/-- Every per-patch chunk has exactly 48 entries. -/
theorem teapotTables_length : ∀ c ∈ teapotTables, c.length = 48 := by
  have h : teapotTables.all (fun c => c.length == 48) = true := by decide!
  intro c hc
  have := List.all_eq_true.mp h c hc
  simpa using this

/-- Flat table access at `48*i + k` (with `k < 48`) reads chunk `i`. -/
theorem tableEntry_chunk (i k : ℕ) (hk : k < 48) :
    tableEntry (48 * i + k) = (teapotTables.getD i []).getD k 0 := by
  rw [tableEntry, tableFlatten]
  exact flatten_getD_chunk 48 teapotTables i k teapotTables_length hk

/-- The `k = 0` case of `tableEntry_chunk` without the additive index. -/
theorem tableEntry_chunk0 (i : ℕ) :
    tableEntry (48 * i) = (teapotTables.getD i []).getD 0 0 := by
  have := tableEntry_chunk i 0 (by norm_num)
  simpa using this

/-- The teapot patch `i` is the patch built from chunk `i` of the table. -/
theorem teapotPatch_eq_chunk (i : ℕ) :
    teapotPatch i = patchOfChunk (teapotTables.getD i []) := by
  simp [teapotPatch, patchOfChunk, controlPointAt, tableEntry_chunk, tableEntry_chunk0]

/-- Building a patch from a rational chunk that is the `ratScale` image of a
scaled chunk is the cast of the scaled patch. -/
theorem patchOfChunk_cast (lz : List ℤ) :
    patchOfChunk (lz.map ratScale) = castPatch (patchOfChunkZ lz) := by
  simp [patchOfChunk, castPatch, patchOfChunkZ, ctrlCast, optionScale]

set_option maxHeartbeats 3200000 in
/-- The rational Bezier position of a cast patch at grid parameters `(a/10, b/10)`
is the cast of the scaled integer position. -/
theorem bezierPosition_cast (P : PatchZ) (a b : ℕ) :
    bezierPosition (castPatch P) ((a : ℚ) / 10) ((b : ℚ) / 10)
      = posCast (bezierPositionZ P (a : ℤ) (b : ℤ)) := by
  simp only [bezierPosition, bezierPositionZ, castPatch, ctrlCast, posCast, toQ, vadd, vaddZ,
    vsmul, vsmulZ, bern0, bern1, bern2, bern3, wt0, wt1, wt2, wt3, ratScale, invScale,
    Vec3.mk.injEq]
  refine ⟨?_, ?_, ?_⟩ <;> (push_cast; field_simp; ring)

/-- A tessellation sample row of a cast patch is the cast of the scaled row. -/
theorem sampleRow_cast (P : PatchZ) (a : ℕ) :
    sampleRow (castPatch P) 10 a = (sampleRowZ P a).map posCast := by
  simp only [sampleRow, sampleRowZ, List.map_map]
  refine List.map_congr_left fun b hb => ?_
  simp only [Function.comp_apply]
  rw [show ((10 : ℕ) : ℚ) = 10 by norm_num]
  exact bezierPosition_cast P a b

/-- The strip triangles over cast rows are the casts of the scaled strip
triangles. -/
theorem stripTriangles_cast : ∀ l1 l2 : List Vec3Z,
    stripTriangles (l1.map posCast) (l2.map posCast) = (stripTrianglesZ l1 l2).map triCast := by
  intro l1
  induction l1 with
  | nil => intro l2; simp [stripTriangles, stripTrianglesZ]
  | cons A rest ih =>
    intro l2
    cases rest with
    | nil => cases l2 <;> simp [stripTriangles, stripTrianglesZ]
    | cons C r1 =>
      cases l2 with
      | nil => simp [stripTriangles, stripTrianglesZ]
      | cons B rest2 =>
        cases rest2 with
        | nil => simp [stripTriangles, stripTrianglesZ]
        | cons D r2 =>
          simp only [List.map_cons, stripTriangles, stripTrianglesZ, cellTriangles]
          have := ih (D :: r2)
          simp only [List.map_cons] at this
          simp [this, triCast]

/-- The tessellation triangle list of a cast patch is the cast of the scaled
triangle list. -/
theorem patchTriangles_cast (P : PatchZ) :
    patchTriangles (castPatch P) 10 = (patchTrianglesZ P).map triCast := by
  simp only [patchTriangles, patchTrianglesZ]
  have key : ∀ L : List ℕ,
      L.foldr (fun a acc =>
        stripTriangles (sampleRow (castPatch P) 10 a) (sampleRow (castPatch P) 10 (a + 1)) ++ acc) []
        = (L.foldr (fun a acc =>
            stripTrianglesZ (sampleRowZ P a) (sampleRowZ P (a + 1)) ++ acc) []).map triCast := by
    intro L
    induction L with
    | nil => simp
    | cons a L ih =>
      simp only [List.foldr_cons, List.map_append]
      rw [sampleRow_cast, sampleRow_cast, stripTriangles_cast, ih]
  exact key (List.range 10)

/-- Subtraction commutes with `posCast`. -/
theorem posCast_sub (a b : Vec3Z) : vsub (posCast a) (posCast b) = posCast (vsubZ a b) := by
  simp only [vsub, vsubZ, posCast, toQ, vsmul, Vec3.mk.injEq]
  refine ⟨?_, ?_, ?_⟩ <;> (push_cast; ring)

/-- The cross product of cast vectors is the doubly-scaled cast of the integer
cross product. -/
theorem vcross_posCast (a b : Vec3Z) :
    vcross (posCast a) (posCast b) = vsmul (invScale * invScale) (toQ (vcrossZ a b)) := by
  simp only [vcross, vcrossZ, posCast, toQ, vsmul, Vec3.mk.injEq]
  refine ⟨?_, ?_, ?_⟩ <;> (push_cast; ring)

/-- Scaling by the nonzero factor `invScale²` does not change the zero test. -/
theorem isZeroVec_smul_toQ (w : Vec3Z) :
    isZeroVec (vsmul (invScale * invScale) (toQ w)) = isZeroVecZ w := by
  simp only [isZeroVec, isZeroVecZ, vsmul, toQ]
  rw [Bool.eq_iff_iff]
  have hs : invScale * invScale ≠ 0 := by norm_num [invScale]
  simp [beq_iff_eq, mul_eq_zero, hs]

/-- Triangle degeneracy is invariant under casting. -/
theorem triangleDegenerate_cast (T : Vec3Z × Vec3Z × Vec3Z) :
    triangleDegenerate (triCast T) = triangleDegenerateZ T := by
  obtain ⟨A, B, C⟩ := T
  simp only [triCast, triangleDegenerate, triangleDegenerateZ]
  rw [posCast_sub, posCast_sub, vcross_posCast, isZeroVec_smul_toQ]

/-! ## Per-patch facts: chunk casts and the heavy tessellation computations -/
/-- Chunk 0 of the rational table is the `ratScale` image of its scaled chunk. -/
theorem chunkCast0 : teapotTable0 = teapotTableScaled0.map ratScale := by decide!
/-- Chunk 1 of the rational table is the `ratScale` image of its scaled chunk. -/
theorem chunkCast1 : teapotTable1 = teapotTableScaled1.map ratScale := by decide!
/-- Chunk 2 of the rational table is the `ratScale` image of its scaled chunk. -/
theorem chunkCast2 : teapotTable2 = teapotTableScaled2.map ratScale := by decide!
/-- Chunk 3 of the rational table is the `ratScale` image of its scaled chunk. -/
theorem chunkCast3 : teapotTable3 = teapotTableScaled3.map ratScale := by decide!
/-- Chunk 4 of the rational table is the `ratScale` image of its scaled chunk. -/
theorem chunkCast4 : teapotTable4 = teapotTableScaled4.map ratScale := by decide!
/-- Chunk 5 of the rational table is the `ratScale` image of its scaled chunk. -/
theorem chunkCast5 : teapotTable5 = teapotTableScaled5.map ratScale := by decide!
/-- Chunk 6 of the rational table is the `ratScale` image of its scaled chunk. -/
theorem chunkCast6 : teapotTable6 = teapotTableScaled6.map ratScale := by decide!
/-- Chunk 7 of the rational table is the `ratScale` image of its scaled chunk. -/
theorem chunkCast7 : teapotTable7 = teapotTableScaled7.map ratScale := by decide!
/-- Chunk 8 of the rational table is the `ratScale` image of its scaled chunk. -/
theorem chunkCast8 : teapotTable8 = teapotTableScaled8.map ratScale := by decide!
/-- Chunk 9 of the rational table is the `ratScale` image of its scaled chunk. -/
theorem chunkCast9 : teapotTable9 = teapotTableScaled9.map ratScale := by decide!
/-- Chunk 10 of the rational table is the `ratScale` image of its scaled chunk. -/
theorem chunkCast10 : teapotTable10 = teapotTableScaled10.map ratScale := by decide!
/-- Chunk 11 of the rational table is the `ratScale` image of its scaled chunk. -/
theorem chunkCast11 : teapotTable11 = teapotTableScaled11.map ratScale := by decide!
/-- Chunk 12 of the rational table is the `ratScale` image of its scaled chunk. -/
theorem chunkCast12 : teapotTable12 = teapotTableScaled12.map ratScale := by decide!
/-- Chunk 13 of the rational table is the `ratScale` image of its scaled chunk. -/
theorem chunkCast13 : teapotTable13 = teapotTableScaled13.map ratScale := by decide!
/-- Chunk 14 of the rational table is the `ratScale` image of its scaled chunk. -/
theorem chunkCast14 : teapotTable14 = teapotTableScaled14.map ratScale := by decide!
/-- Chunk 15 of the rational table is the `ratScale` image of its scaled chunk. -/
theorem chunkCast15 : teapotTable15 = teapotTableScaled15.map ratScale := by decide!
/-- Chunk 16 of the rational table is the `ratScale` image of its scaled chunk. -/
theorem chunkCast16 : teapotTable16 = teapotTableScaled16.map ratScale := by decide!
/-- Chunk 17 of the rational table is the `ratScale` image of its scaled chunk. -/
theorem chunkCast17 : teapotTable17 = teapotTableScaled17.map ratScale := by decide!
/-- Chunk 18 of the rational table is the `ratScale` image of its scaled chunk. -/
theorem chunkCast18 : teapotTable18 = teapotTableScaled18.map ratScale := by decide!
/-- Chunk 19 of the rational table is the `ratScale` image of its scaled chunk. -/
theorem chunkCast19 : teapotTable19 = teapotTableScaled19.map ratScale := by decide!
/-- Chunk 20 of the rational table is the `ratScale` image of its scaled chunk. -/
theorem chunkCast20 : teapotTable20 = teapotTableScaled20.map ratScale := by decide!
/-- Chunk 21 of the rational table is the `ratScale` image of its scaled chunk. -/
theorem chunkCast21 : teapotTable21 = teapotTableScaled21.map ratScale := by decide!
/-- Chunk 22 of the rational table is the `ratScale` image of its scaled chunk. -/
theorem chunkCast22 : teapotTable22 = teapotTableScaled22.map ratScale := by decide!
/-- Chunk 23 of the rational table is the `ratScale` image of its scaled chunk. -/
theorem chunkCast23 : teapotTable23 = teapotTableScaled23.map ratScale := by decide!
/-- Chunk 24 of the rational table is the `ratScale` image of its scaled chunk. -/
theorem chunkCast24 : teapotTable24 = teapotTableScaled24.map ratScale := by decide!
/-- Chunk 25 of the rational table is the `ratScale` image of its scaled chunk. -/
theorem chunkCast25 : teapotTable25 = teapotTableScaled25.map ratScale := by decide!
/-- Chunk 26 of the rational table is the `ratScale` image of its scaled chunk. -/
theorem chunkCast26 : teapotTable26 = teapotTableScaled26.map ratScale := by decide!
/-- Chunk 27 of the rational table is the `ratScale` image of its scaled chunk. -/
theorem chunkCast27 : teapotTable27 = teapotTableScaled27.map ratScale := by decide!
/-- The triangle list of teapot patch 0 is the cast of its scaled triangle list. -/
theorem patchTriEq0 :
    patchTriangles (teapotPatch 0) 10
      = (patchTrianglesZ (patchOfChunkZ teapotTableScaled0)).map triCast := by
  rw [teapotPatch_eq_chunk, show teapotTables.getD 0 [] = teapotTable0 from rfl,
    chunkCast0, patchOfChunk_cast, patchTriangles_cast]
/-- The triangle list of teapot patch 1 is the cast of its scaled triangle list. -/
theorem patchTriEq1 :
    patchTriangles (teapotPatch 1) 10
      = (patchTrianglesZ (patchOfChunkZ teapotTableScaled1)).map triCast := by
  rw [teapotPatch_eq_chunk, show teapotTables.getD 1 [] = teapotTable1 from rfl,
    chunkCast1, patchOfChunk_cast, patchTriangles_cast]
/-- The triangle list of teapot patch 2 is the cast of its scaled triangle list. -/
theorem patchTriEq2 :
    patchTriangles (teapotPatch 2) 10
      = (patchTrianglesZ (patchOfChunkZ teapotTableScaled2)).map triCast := by
  rw [teapotPatch_eq_chunk, show teapotTables.getD 2 [] = teapotTable2 from rfl,
    chunkCast2, patchOfChunk_cast, patchTriangles_cast]
/-- The triangle list of teapot patch 3 is the cast of its scaled triangle list. -/
theorem patchTriEq3 :
    patchTriangles (teapotPatch 3) 10
      = (patchTrianglesZ (patchOfChunkZ teapotTableScaled3)).map triCast := by
  rw [teapotPatch_eq_chunk, show teapotTables.getD 3 [] = teapotTable3 from rfl,
    chunkCast3, patchOfChunk_cast, patchTriangles_cast]
/-- The triangle list of teapot patch 4 is the cast of its scaled triangle list. -/
theorem patchTriEq4 :
    patchTriangles (teapotPatch 4) 10
      = (patchTrianglesZ (patchOfChunkZ teapotTableScaled4)).map triCast := by
  rw [teapotPatch_eq_chunk, show teapotTables.getD 4 [] = teapotTable4 from rfl,
    chunkCast4, patchOfChunk_cast, patchTriangles_cast]
/-- The triangle list of teapot patch 5 is the cast of its scaled triangle list. -/
theorem patchTriEq5 :
    patchTriangles (teapotPatch 5) 10
      = (patchTrianglesZ (patchOfChunkZ teapotTableScaled5)).map triCast := by
  rw [teapotPatch_eq_chunk, show teapotTables.getD 5 [] = teapotTable5 from rfl,
    chunkCast5, patchOfChunk_cast, patchTriangles_cast]
/-- The triangle list of teapot patch 6 is the cast of its scaled triangle list. -/
theorem patchTriEq6 :
    patchTriangles (teapotPatch 6) 10
      = (patchTrianglesZ (patchOfChunkZ teapotTableScaled6)).map triCast := by
  rw [teapotPatch_eq_chunk, show teapotTables.getD 6 [] = teapotTable6 from rfl,
    chunkCast6, patchOfChunk_cast, patchTriangles_cast]
/-- The triangle list of teapot patch 7 is the cast of its scaled triangle list. -/
theorem patchTriEq7 :
    patchTriangles (teapotPatch 7) 10
      = (patchTrianglesZ (patchOfChunkZ teapotTableScaled7)).map triCast := by
  rw [teapotPatch_eq_chunk, show teapotTables.getD 7 [] = teapotTable7 from rfl,
    chunkCast7, patchOfChunk_cast, patchTriangles_cast]
/-- The triangle list of teapot patch 8 is the cast of its scaled triangle list. -/
theorem patchTriEq8 :
    patchTriangles (teapotPatch 8) 10
      = (patchTrianglesZ (patchOfChunkZ teapotTableScaled8)).map triCast := by
  rw [teapotPatch_eq_chunk, show teapotTables.getD 8 [] = teapotTable8 from rfl,
    chunkCast8, patchOfChunk_cast, patchTriangles_cast]
/-- The triangle list of teapot patch 9 is the cast of its scaled triangle list. -/
theorem patchTriEq9 :
    patchTriangles (teapotPatch 9) 10
      = (patchTrianglesZ (patchOfChunkZ teapotTableScaled9)).map triCast := by
  rw [teapotPatch_eq_chunk, show teapotTables.getD 9 [] = teapotTable9 from rfl,
    chunkCast9, patchOfChunk_cast, patchTriangles_cast]
/-- The triangle list of teapot patch 10 is the cast of its scaled triangle list. -/
theorem patchTriEq10 :
    patchTriangles (teapotPatch 10) 10
      = (patchTrianglesZ (patchOfChunkZ teapotTableScaled10)).map triCast := by
  rw [teapotPatch_eq_chunk, show teapotTables.getD 10 [] = teapotTable10 from rfl,
    chunkCast10, patchOfChunk_cast, patchTriangles_cast]
/-- The triangle list of teapot patch 11 is the cast of its scaled triangle list. -/
theorem patchTriEq11 :
    patchTriangles (teapotPatch 11) 10
      = (patchTrianglesZ (patchOfChunkZ teapotTableScaled11)).map triCast := by
  rw [teapotPatch_eq_chunk, show teapotTables.getD 11 [] = teapotTable11 from rfl,
    chunkCast11, patchOfChunk_cast, patchTriangles_cast]
/-- The triangle list of teapot patch 12 is the cast of its scaled triangle list. -/
theorem patchTriEq12 :
    patchTriangles (teapotPatch 12) 10
      = (patchTrianglesZ (patchOfChunkZ teapotTableScaled12)).map triCast := by
  rw [teapotPatch_eq_chunk, show teapotTables.getD 12 [] = teapotTable12 from rfl,
    chunkCast12, patchOfChunk_cast, patchTriangles_cast]
/-- The triangle list of teapot patch 13 is the cast of its scaled triangle list. -/
theorem patchTriEq13 :
    patchTriangles (teapotPatch 13) 10
      = (patchTrianglesZ (patchOfChunkZ teapotTableScaled13)).map triCast := by
  rw [teapotPatch_eq_chunk, show teapotTables.getD 13 [] = teapotTable13 from rfl,
    chunkCast13, patchOfChunk_cast, patchTriangles_cast]
/-- The triangle list of teapot patch 14 is the cast of its scaled triangle list. -/
theorem patchTriEq14 :
    patchTriangles (teapotPatch 14) 10
      = (patchTrianglesZ (patchOfChunkZ teapotTableScaled14)).map triCast := by
  rw [teapotPatch_eq_chunk, show teapotTables.getD 14 [] = teapotTable14 from rfl,
    chunkCast14, patchOfChunk_cast, patchTriangles_cast]
/-- The triangle list of teapot patch 15 is the cast of its scaled triangle list. -/
theorem patchTriEq15 :
    patchTriangles (teapotPatch 15) 10
      = (patchTrianglesZ (patchOfChunkZ teapotTableScaled15)).map triCast := by
  rw [teapotPatch_eq_chunk, show teapotTables.getD 15 [] = teapotTable15 from rfl,
    chunkCast15, patchOfChunk_cast, patchTriangles_cast]
/-- The triangle list of teapot patch 16 is the cast of its scaled triangle list. -/
theorem patchTriEq16 :
    patchTriangles (teapotPatch 16) 10
      = (patchTrianglesZ (patchOfChunkZ teapotTableScaled16)).map triCast := by
  rw [teapotPatch_eq_chunk, show teapotTables.getD 16 [] = teapotTable16 from rfl,
    chunkCast16, patchOfChunk_cast, patchTriangles_cast]
/-- The triangle list of teapot patch 17 is the cast of its scaled triangle list. -/
theorem patchTriEq17 :
    patchTriangles (teapotPatch 17) 10
      = (patchTrianglesZ (patchOfChunkZ teapotTableScaled17)).map triCast := by
  rw [teapotPatch_eq_chunk, show teapotTables.getD 17 [] = teapotTable17 from rfl,
    chunkCast17, patchOfChunk_cast, patchTriangles_cast]
/-- The triangle list of teapot patch 18 is the cast of its scaled triangle list. -/
theorem patchTriEq18 :
    patchTriangles (teapotPatch 18) 10
      = (patchTrianglesZ (patchOfChunkZ teapotTableScaled18)).map triCast := by
  rw [teapotPatch_eq_chunk, show teapotTables.getD 18 [] = teapotTable18 from rfl,
    chunkCast18, patchOfChunk_cast, patchTriangles_cast]
/-- The triangle list of teapot patch 19 is the cast of its scaled triangle list. -/
theorem patchTriEq19 :
    patchTriangles (teapotPatch 19) 10
      = (patchTrianglesZ (patchOfChunkZ teapotTableScaled19)).map triCast := by
  rw [teapotPatch_eq_chunk, show teapotTables.getD 19 [] = teapotTable19 from rfl,
    chunkCast19, patchOfChunk_cast, patchTriangles_cast]
/-- The triangle list of teapot patch 20 is the cast of its scaled triangle list. -/
theorem patchTriEq20 :
    patchTriangles (teapotPatch 20) 10
      = (patchTrianglesZ (patchOfChunkZ teapotTableScaled20)).map triCast := by
  rw [teapotPatch_eq_chunk, show teapotTables.getD 20 [] = teapotTable20 from rfl,
    chunkCast20, patchOfChunk_cast, patchTriangles_cast]
/-- The triangle list of teapot patch 21 is the cast of its scaled triangle list. -/
theorem patchTriEq21 :
    patchTriangles (teapotPatch 21) 10
      = (patchTrianglesZ (patchOfChunkZ teapotTableScaled21)).map triCast := by
  rw [teapotPatch_eq_chunk, show teapotTables.getD 21 [] = teapotTable21 from rfl,
    chunkCast21, patchOfChunk_cast, patchTriangles_cast]
/-- The triangle list of teapot patch 22 is the cast of its scaled triangle list. -/
theorem patchTriEq22 :
    patchTriangles (teapotPatch 22) 10
      = (patchTrianglesZ (patchOfChunkZ teapotTableScaled22)).map triCast := by
  rw [teapotPatch_eq_chunk, show teapotTables.getD 22 [] = teapotTable22 from rfl,
    chunkCast22, patchOfChunk_cast, patchTriangles_cast]
/-- The triangle list of teapot patch 23 is the cast of its scaled triangle list. -/
theorem patchTriEq23 :
    patchTriangles (teapotPatch 23) 10
      = (patchTrianglesZ (patchOfChunkZ teapotTableScaled23)).map triCast := by
  rw [teapotPatch_eq_chunk, show teapotTables.getD 23 [] = teapotTable23 from rfl,
    chunkCast23, patchOfChunk_cast, patchTriangles_cast]
/-- The triangle list of teapot patch 24 is the cast of its scaled triangle list. -/
theorem patchTriEq24 :
    patchTriangles (teapotPatch 24) 10
      = (patchTrianglesZ (patchOfChunkZ teapotTableScaled24)).map triCast := by
  rw [teapotPatch_eq_chunk, show teapotTables.getD 24 [] = teapotTable24 from rfl,
    chunkCast24, patchOfChunk_cast, patchTriangles_cast]
/-- The triangle list of teapot patch 25 is the cast of its scaled triangle list. -/
theorem patchTriEq25 :
    patchTriangles (teapotPatch 25) 10
      = (patchTrianglesZ (patchOfChunkZ teapotTableScaled25)).map triCast := by
  rw [teapotPatch_eq_chunk, show teapotTables.getD 25 [] = teapotTable25 from rfl,
    chunkCast25, patchOfChunk_cast, patchTriangles_cast]
/-- The triangle list of teapot patch 26 is the cast of its scaled triangle list. -/
theorem patchTriEq26 :
    patchTriangles (teapotPatch 26) 10
      = (patchTrianglesZ (patchOfChunkZ teapotTableScaled26)).map triCast := by
  rw [teapotPatch_eq_chunk, show teapotTables.getD 26 [] = teapotTable26 from rfl,
    chunkCast26, patchOfChunk_cast, patchTriangles_cast]
/-- The triangle list of teapot patch 27 is the cast of its scaled triangle list. -/
theorem patchTriEq27 :
    patchTriangles (teapotPatch 27) 10
      = (patchTrianglesZ (patchOfChunkZ teapotTableScaled27)).map triCast := by
  rw [teapotPatch_eq_chunk, show teapotTables.getD 27 [] = teapotTable27 from rfl,
    chunkCast27, patchOfChunk_cast, patchTriangles_cast]
set_option maxRecDepth 100000 in
/-- The scaled tessellation of teapot patch 0: 200 triangles, none degenerate. -/
theorem teapotPatchCheck0 : patchCheckZ teapotTableScaled0 = true := by decide!
set_option maxRecDepth 100000 in
/-- The scaled tessellation of teapot patch 1: 200 triangles, none degenerate. -/
theorem teapotPatchCheck1 : patchCheckZ teapotTableScaled1 = true := by decide!
set_option maxRecDepth 100000 in
/-- The scaled tessellation of teapot patch 2: 200 triangles, none degenerate. -/
theorem teapotPatchCheck2 : patchCheckZ teapotTableScaled2 = true := by decide!
set_option maxRecDepth 100000 in
/-- The scaled tessellation of teapot patch 3: 200 triangles, none degenerate. -/
theorem teapotPatchCheck3 : patchCheckZ teapotTableScaled3 = true := by decide!
set_option maxRecDepth 100000 in
/-- The scaled tessellation of teapot patch 4: 200 triangles, none degenerate. -/
theorem teapotPatchCheck4 : patchCheckZ teapotTableScaled4 = true := by decide!
set_option maxRecDepth 100000 in
/-- The scaled tessellation of teapot patch 5: 200 triangles, none degenerate. -/
theorem teapotPatchCheck5 : patchCheckZ teapotTableScaled5 = true := by decide!
set_option maxRecDepth 100000 in
/-- The scaled tessellation of teapot patch 6: 200 triangles, none degenerate. -/
theorem teapotPatchCheck6 : patchCheckZ teapotTableScaled6 = true := by decide!
set_option maxRecDepth 100000 in
/-- The scaled tessellation of teapot patch 7: 200 triangles, none degenerate. -/
theorem teapotPatchCheck7 : patchCheckZ teapotTableScaled7 = true := by decide!
set_option maxRecDepth 100000 in
/-- The scaled tessellation of teapot patch 8: 200 triangles, none degenerate. -/
theorem teapotPatchCheck8 : patchCheckZ teapotTableScaled8 = true := by decide!
set_option maxRecDepth 100000 in
/-- The scaled tessellation of teapot patch 9: 200 triangles, none degenerate. -/
theorem teapotPatchCheck9 : patchCheckZ teapotTableScaled9 = true := by decide!
set_option maxRecDepth 100000 in
/-- The scaled tessellation of teapot patch 10: 200 triangles, none degenerate. -/
theorem teapotPatchCheck10 : patchCheckZ teapotTableScaled10 = true := by decide!
set_option maxRecDepth 100000 in
/-- The scaled tessellation of teapot patch 11: 200 triangles, none degenerate. -/
theorem teapotPatchCheck11 : patchCheckZ teapotTableScaled11 = true := by decide!
set_option maxRecDepth 100000 in
/-- The scaled tessellation of teapot patch 12: 200 triangles, none degenerate. -/
theorem teapotPatchCheck12 : patchCheckZ teapotTableScaled12 = true := by decide!
set_option maxRecDepth 100000 in
/-- The scaled tessellation of teapot patch 13: 200 triangles, none degenerate. -/
theorem teapotPatchCheck13 : patchCheckZ teapotTableScaled13 = true := by decide!
set_option maxRecDepth 100000 in
/-- The scaled tessellation of teapot patch 14: 200 triangles, none degenerate. -/
theorem teapotPatchCheck14 : patchCheckZ teapotTableScaled14 = true := by decide!
set_option maxRecDepth 100000 in
/-- The scaled tessellation of teapot patch 15: 200 triangles, none degenerate. -/
theorem teapotPatchCheck15 : patchCheckZ teapotTableScaled15 = true := by decide!
set_option maxRecDepth 100000 in
/-- The scaled tessellation of teapot patch 16: 200 triangles, none degenerate. -/
theorem teapotPatchCheck16 : patchCheckZ teapotTableScaled16 = true := by decide!
set_option maxRecDepth 100000 in
/-- The scaled tessellation of teapot patch 17: 200 triangles, none degenerate. -/
theorem teapotPatchCheck17 : patchCheckZ teapotTableScaled17 = true := by decide!
set_option maxRecDepth 100000 in
/-- The scaled tessellation of teapot patch 18: 200 triangles, none degenerate. -/
theorem teapotPatchCheck18 : patchCheckZ teapotTableScaled18 = true := by decide!
set_option maxRecDepth 100000 in
/-- The scaled tessellation of teapot patch 19: 200 triangles, none degenerate. -/
theorem teapotPatchCheck19 : patchCheckZ teapotTableScaled19 = true := by decide!
set_option maxRecDepth 100000 in
/-- The scaled tessellation of teapot patch 20: 200 triangles, none degenerate. -/
theorem teapotPatchCheck20 : patchCheckZ teapotTableScaled20 = true := by decide!
set_option maxRecDepth 100000 in
/-- The scaled tessellation of teapot patch 21: 200 triangles, none degenerate. -/
theorem teapotPatchCheck21 : patchCheckZ teapotTableScaled21 = true := by decide!
set_option maxRecDepth 100000 in
/-- The scaled tessellation of teapot patch 22: 200 triangles, none degenerate. -/
theorem teapotPatchCheck22 : patchCheckZ teapotTableScaled22 = true := by decide!
set_option maxRecDepth 100000 in
/-- The scaled tessellation of teapot patch 23: 200 triangles, none degenerate. -/
theorem teapotPatchCheck23 : patchCheckZ teapotTableScaled23 = true := by decide!
set_option maxRecDepth 100000 in
/-- The scaled tessellation of teapot patch 24: 200 triangles, none degenerate. -/
theorem teapotPatchCheck24 : patchCheckZ teapotTableScaled24 = true := by decide!
set_option maxRecDepth 100000 in
/-- The scaled tessellation of teapot patch 25: 200 triangles, none degenerate. -/
theorem teapotPatchCheck25 : patchCheckZ teapotTableScaled25 = true := by decide!
set_option maxRecDepth 100000 in
/-- The scaled tessellation of teapot patch 26: 200 triangles, none degenerate. -/
theorem teapotPatchCheck26 : patchCheckZ teapotTableScaled26 = true := by decide!
set_option maxRecDepth 100000 in
/-- The scaled tessellation of teapot patch 27: 200 triangles, none degenerate. -/
theorem teapotPatchCheck27 : patchCheckZ teapotTableScaled27 = true := by decide!
/-- Checking `all` over a mapped list tests the composite predicate. -/
theorem all_map_general {α β : Type} (l : List α) (f : α → β) (p : β → Bool) :
    (l.map f).all p = l.all fun a => p (f a) := by
  induction l with
  | nil => rfl
  | cons a l ih => simp [ih]

/-- Unpacking of the combined per-patch boolean check. -/
theorem patchCheckZ_parts {l : List ℤ} (h : patchCheckZ l = true) :
    (patchTrianglesZ (patchOfChunkZ l)).length = 200 ∧
      (patchTrianglesZ (patchOfChunkZ l)).all (fun T => !(triangleDegenerateZ T)) = true := by
  simp only [patchCheckZ, Bool.and_eq_true, beq_iff_eq] at h
  exact h

/-- The first 28 naturals, spelled out. -/
theorem range28 : List.range 28 =
    [0, 1, 2, 3, 4, 5, 6, 7, 8, 9, 10, 11, 12, 13, 14,
     15, 16, 17, 18, 19, 20, 21, 22, 23, 24, 25, 26, 27] := by rfl

/-- The teapot triangle list is the cast of the scaled teapot triangle list. -/
theorem teapotTriangles_cast : teapotTriangles = teapotTrianglesZ.map triCast := by
  simp only [teapotTriangles, teapotTrianglesZ, range28, List.foldr_cons, List.foldr_nil,
    patchTriEq0, patchTriEq1, patchTriEq2, patchTriEq3, patchTriEq4, patchTriEq5, patchTriEq6, patchTriEq7, patchTriEq8, patchTriEq9, patchTriEq10, patchTriEq11, patchTriEq12, patchTriEq13, patchTriEq14, patchTriEq15, patchTriEq16, patchTriEq17, patchTriEq18, patchTriEq19, patchTriEq20, patchTriEq21, patchTriEq22, patchTriEq23, patchTriEq24, patchTriEq25, patchTriEq26, patchTriEq27,
    List.map_append, List.append_assoc, List.append_nil]

/-- The scaled teapot triangle list has exactly 5600 entries. -/
theorem teapotTrianglesZ_length : teapotTrianglesZ.length = 5600 := by
  simp only [teapotTrianglesZ, List.length_append,
    (patchCheckZ_parts teapotPatchCheck0).1, (patchCheckZ_parts teapotPatchCheck1).1, (patchCheckZ_parts teapotPatchCheck2).1, (patchCheckZ_parts teapotPatchCheck3).1, (patchCheckZ_parts teapotPatchCheck4).1, (patchCheckZ_parts teapotPatchCheck5).1, (patchCheckZ_parts teapotPatchCheck6).1, (patchCheckZ_parts teapotPatchCheck7).1, (patchCheckZ_parts teapotPatchCheck8).1, (patchCheckZ_parts teapotPatchCheck9).1, (patchCheckZ_parts teapotPatchCheck10).1, (patchCheckZ_parts teapotPatchCheck11).1, (patchCheckZ_parts teapotPatchCheck12).1, (patchCheckZ_parts teapotPatchCheck13).1, (patchCheckZ_parts teapotPatchCheck14).1, (patchCheckZ_parts teapotPatchCheck15).1, (patchCheckZ_parts teapotPatchCheck16).1, (patchCheckZ_parts teapotPatchCheck17).1, (patchCheckZ_parts teapotPatchCheck18).1, (patchCheckZ_parts teapotPatchCheck19).1, (patchCheckZ_parts teapotPatchCheck20).1, (patchCheckZ_parts teapotPatchCheck21).1, (patchCheckZ_parts teapotPatchCheck22).1, (patchCheckZ_parts teapotPatchCheck23).1, (patchCheckZ_parts teapotPatchCheck24).1, (patchCheckZ_parts teapotPatchCheck25).1, (patchCheckZ_parts teapotPatchCheck26).1, (patchCheckZ_parts teapotPatchCheck27).1]

/-- No scaled teapot triangle is degenerate. -/
theorem teapotTrianglesZ_all :
    teapotTrianglesZ.all (fun T => !(triangleDegenerateZ T)) = true := by
  simp only [teapotTrianglesZ, List.all_append,
    (patchCheckZ_parts teapotPatchCheck0).2, (patchCheckZ_parts teapotPatchCheck1).2, (patchCheckZ_parts teapotPatchCheck2).2, (patchCheckZ_parts teapotPatchCheck3).2, (patchCheckZ_parts teapotPatchCheck4).2, (patchCheckZ_parts teapotPatchCheck5).2, (patchCheckZ_parts teapotPatchCheck6).2, (patchCheckZ_parts teapotPatchCheck7).2, (patchCheckZ_parts teapotPatchCheck8).2, (patchCheckZ_parts teapotPatchCheck9).2, (patchCheckZ_parts teapotPatchCheck10).2, (patchCheckZ_parts teapotPatchCheck11).2, (patchCheckZ_parts teapotPatchCheck12).2, (patchCheckZ_parts teapotPatchCheck13).2, (patchCheckZ_parts teapotPatchCheck14).2, (patchCheckZ_parts teapotPatchCheck15).2, (patchCheckZ_parts teapotPatchCheck16).2, (patchCheckZ_parts teapotPatchCheck17).2, (patchCheckZ_parts teapotPatchCheck18).2, (patchCheckZ_parts teapotPatchCheck19).2, (patchCheckZ_parts teapotPatchCheck20).2, (patchCheckZ_parts teapotPatchCheck21).2, (patchCheckZ_parts teapotPatchCheck22).2, (patchCheckZ_parts teapotPatchCheck23).2, (patchCheckZ_parts teapotPatchCheck24).2, (patchCheckZ_parts teapotPatchCheck25).2, (patchCheckZ_parts teapotPatchCheck26).2, (patchCheckZ_parts teapotPatchCheck27).2,
    Bool.and_self]

/-- C1: tessellating all 28 teapot patches at resolution 10 yields exactly
28 × 10 × 10 × 2 = 5600 triangles, and none of them is degenerate (zero area);
in the exact-arithmetic model every coordinate is a well-defined rational, so
no NaN can occur. -/
theorem C1_teapot_tessellation :
    teapotTriangles.length = 5600 ∧
      teapotTriangles.all (fun T => !(triangleDegenerate T)) = true := by
  constructor
  · rw [teapotTriangles_cast, List.length_map, teapotTrianglesZ_length]
  · rw [teapotTriangles_cast, all_map_general]
    have hcomp : (fun T : Vec3Z × Vec3Z × Vec3Z => !(triangleDegenerate (triCast T)))
        = fun T : Vec3Z × Vec3Z × Vec3Z => !(triangleDegenerateZ T) :=
      funext fun T => by rw [triangleDegenerate_cast]
    rw [hcomp]
    exact teapotTrianglesZ_all

/-! ## The remaining claims -/

/-- C4: evaluating the surface at the four parameter corners `(0,0)`, `(1,0)`,
`(0,1)`, `(1,1)` returns exactly the corner control points `P[0][0]`, `P[3][0]`,
`P[0][3]`, `P[3][3]`. -/
theorem C4_corner_interpolation (P : Patch) :
    bezierPosition P 0 0 = P.p00 ∧ bezierPosition P 1 0 = P.p30 ∧
      bezierPosition P 0 1 = P.p03 ∧ bezierPosition P 1 1 = P.p33 := by
  obtain ⟨⟨ax, ay, az⟩, p01, p02, ⟨bx, by', bz⟩, p10, p11, p12, p13,
    p20, p21, p22, p23, ⟨cx, cy, cz⟩, p31, p32, ⟨dx, dy, dz⟩⟩ := P
  refine ⟨?_, ?_, ?_, ?_⟩ <;>
    (simp only [bezierPosition, bern0, bern1, bern2, bern3, vadd, vsmul, Vec3.mk.injEq];
      norm_num)

/-- The scalar cubic Bernstein blend has the quadratic Bernstein-difference
formula (scaled by 3) as its derivative. -/
theorem hasDerivAt_cubicScalar (a b c d t : ℝ) :
    HasDerivAt (fun s => cubicScalar a b c d s) (cubicScalarTangent a b c d t) t := by
  have h1 : HasDerivAt (fun s : ℝ => s) 1 t := hasDerivAt_id t
  have h2 : HasDerivAt (fun s : ℝ => s ^ 2) (2 * t) t := by simpa using hasDerivAt_pow 2 t
  have h3 : HasDerivAt (fun s : ℝ => s ^ 3) (3 * t ^ 2) t := by simpa using hasDerivAt_pow 3 t
  have hp := (((h1.const_mul (3 * b - 3 * a)).const_add a).add
      (h2.const_mul (3 * a - 6 * b + 3 * c))).add (h3.const_mul (d - a + 3 * b - 3 * c))
  have hfun : (fun s : ℝ => cubicScalar a b c d s)
      = fun s : ℝ => (a + (3 * b - 3 * a) * s) + (3 * a - 6 * b + 3 * c) * s ^ 2
          + (d - a + 3 * b - 3 * c) * s ^ 3 :=
    funext fun s => by simp only [cubicScalar]; ring
  rw [hfun]
  convert hp using 1
  simp only [cubicScalarTangent]
  ring

/-- C2: the tangent used for normal generation is the quadratic-Bernstein
difference formula scaled by 3 and is (componentwise) the analytic derivative
of the cubic Bezier curve; the surface normal is
`normalize(Tangent_u × Tangent_v)` built from the two analytic tangents. -/
theorem C2_tangent_is_derivative :
    (∀ (q0 q1 q2 q3 : Vec3R) (t : ℝ),
        HasDerivAt (fun s => (cubicPointR q0 q1 q2 q3 s).x) ((cubicTangentR q0 q1 q2 q3 t).x) t ∧
        HasDerivAt (fun s => (cubicPointR q0 q1 q2 q3 s).y) ((cubicTangentR q0 q1 q2 q3 t).y) t ∧
        HasDerivAt (fun s => (cubicPointR q0 q1 q2 q3 s).z) ((cubicTangentR q0 q1 q2 q3 t).z) t) ∧
      ∀ (P : PatchR) (u v : ℝ),
        (Evaluate P u v).2
          = normalizeR (vcrossR (tangentUR P (clamp01 u) (clamp01 v))
                                (tangentVR P (clamp01 u) (clamp01 v))) := by
  constructor
  · intro q0 q1 q2 q3 t
    exact ⟨hasDerivAt_cubicScalar _ _ _ _ t, hasDerivAt_cubicScalar _ _ _ _ t,
      hasDerivAt_cubicScalar _ _ _ _ t⟩
  · intro P u v
    rfl

/-- The length of a scaled real vector. -/
theorem norm3_smul (c : ℝ) (v : Vec3R) : norm3 (vsmulR c v) = |c| * norm3 v := by
  simp only [norm3, vsmulR]
  rw [show (c * v.x) ^ 2 + (c * v.y) ^ 2 + (c * v.z) ^ 2
      = c ^ 2 * (v.x ^ 2 + v.y ^ 2 + v.z ^ 2) by ring,
    Real.sqrt_mul (sq_nonneg c), Real.sqrt_sq_eq_abs]

/-- The normalization fallback always returns a unit vector. -/
theorem norm3_normalizeR (v : Vec3R) : norm3 (normalizeR v) = 1 := by
  rw [normalizeR]
  split
  · simp only [norm3]
    norm_num [Real.sqrt_one]
  · rename_i h
    have h6 : (1e-6 : ℝ) ≤ norm3 v := le_of_not_lt h
    have hpos : 0 < norm3 v := lt_of_lt_of_le (by norm_num) h6
    rw [norm3_smul, abs_of_pos (by positivity), one_div, inv_mul_cancel₀ (ne_of_gt hpos)]

/-- C3: for all parameters in `[0,1]²`, `Evaluate` returns the (well-defined)
Bezier surface position and a normal whose length is within `1e-4` of 1; a
degenerate (near-zero) tangent cross product is recovered by the fallback, so
no exception remains and no NaN can occur in the exact model. -/
theorem C3_evaluate_unit_normal (P : PatchR) (u v : ℝ)
    (hu0 : 0 ≤ u) (hu1 : u ≤ 1) (hv0 : 0 ≤ v) (hv1 : v ≤ 1) :
    (Evaluate P u v).1 = bezierPositionR P u v ∧
      |norm3 (Evaluate P u v).2 - 1| ≤ 1e-4 := by
  have hcu : clamp01 u = u := by rw [clamp01, min_eq_right hu1, max_eq_right hu0]
  have hcv : clamp01 v = v := by rw [clamp01, min_eq_right hv1, max_eq_right hv0]
  constructor
  · simp [Evaluate, hcu, hcv]
  · simp only [Evaluate]
    rw [norm3_normalizeR]
    norm_num

/-- Witness for C3 at the all-degenerate zero patch and corner `(0,0)` (the
fallback path). -/
theorem C3_evaluate_unit_normal_witness :
    (Evaluate zeroPatchR 0 0).1 = bezierPositionR zeroPatchR 0 0 ∧
      |norm3 (Evaluate zeroPatchR 0 0).2 - 1| ≤ 1e-4 :=
  C3_evaluate_unit_normal zeroPatchR 0 0 (by norm_num) (by norm_num) (by norm_num) (by norm_num)

/-- C5: `SetControlPoints` with an out-of-range index fails with `InvalidIndex`
(and, the model being a pure function, no patch changes); with a valid index it
re-tessellates exactly the indexed patch and leaves every other patch's mesh
unchanged. -/
theorem C5_set_control_points (sp : B_Spline) (i : ℕ) (P : Patch) :
    (sp.patches.length ≤ i → SetControlPoints sp i P = .error .invalidIndex) ∧
      (i < sp.patches.length → ∃ sp', SetControlPoints sp i P = .ok sp' ∧
        sp'.patches[i]?.map PatchState.mesh = some (genMesh tessellationResolution P) ∧
        ∀ j, j ≠ i → sp'.patches[j]?.map PatchState.mesh
          = sp.patches[j]?.map PatchState.mesh) := by
  constructor
  · intro h
    rw [SetControlPoints, if_neg (by omega)]
  · intro h
    refine ⟨⟨sp.patches.set i ⟨P, genMesh tessellationResolution P⟩⟩, ?_, ?_, ?_⟩
    · rw [SetControlPoints, if_pos h]
    · simp [List.getElem?_set_self h]
    · intro j hj
      simp [List.getElem?_set_ne (Ne.symm hj)]

/-- Witness for C5 on a concrete two-patch surface: index 5 is rejected, index
0 re-tessellates patch 0 only. -/
theorem C5_set_control_points_witness :
    SetControlPoints sampleSpline 5 zeroPatch = .error .invalidIndex ∧
      ∃ sp', SetControlPoints sampleSpline 0 zeroPatch = .ok sp' ∧
        sp'.patches[0]?.map PatchState.mesh = some (genMesh tessellationResolution zeroPatch) ∧
        ∀ j, j ≠ 0 → sp'.patches[j]?.map PatchState.mesh
          = sampleSpline.patches[j]?.map PatchState.mesh :=
  ⟨(C5_set_control_points sampleSpline 5 zeroPatch).1 (by simp [sampleSpline]),
   (C5_set_control_points sampleSpline 0 zeroPatch).2 (by simp [sampleSpline])⟩

/-- C6: `Tessellate` is idempotent: re-tessellating a patch whose control
points did not change regenerates identical vertex, normal and index buffers. -/
theorem C6_tessellate_idempotent (R : ℕ) (s : PatchState) :
    Tessellate R (Tessellate R s) = Tessellate R s := rfl

/-- The per-step renormalization always returns a unit quaternion. -/
theorem qnorm_qnormalize (q : Quat) : qnorm (qnormalize q) = 1 := by
  rw [qnormalize]
  split
  · simp only [qnorm]
    norm_num [Real.sqrt_one]
  · rename_i h
    have h6 : (1e-6 : ℝ) ≤ qnorm q := le_of_not_lt h
    have hpos : 0 < qnorm q := lt_of_lt_of_le (by norm_num) h6
    have hpos' : 0 < Real.sqrt (q.w ^ 2 + q.x ^ 2 + q.y ^ 2 + q.z ^ 2) := by
      simpa only [qnorm] using hpos
    have hs : 0 < q.w ^ 2 + q.x ^ 2 + q.y ^ 2 + q.z ^ 2 := Real.sqrt_pos.mp hpos'
    simp only [qnorm]
    rw [div_pow, div_pow, div_pow, div_pow, div_add_div_same, div_add_div_same,
      div_add_div_same, Real.sq_sqrt hs.le, div_self hs.ne']
    exact Real.sqrt_one

/-- Norm preservation over any run of update steps. -/
theorem runUpdates_norm (dqs : List Quat) : ∀ q : Quat, qnorm q = 1 →
    qnorm (runUpdates q dqs) = 1 := by
  induction dqs with
  | nil => intro q hq; simpa [runUpdates] using hq
  | cons dq dqs ih =>
    intro q hq
    have h1 : qnorm (UpdateOrientation dq q) = 1 := qnorm_qnormalize _
    have := ih (UpdateOrientation dq q) h1
    simpa [runUpdates] using this

/-- C7: `Update(dt)` renormalizes the orientation each step, so starting from a
unit orientation the norm after a 10,000-step run stays within `1e-3` of 1
(it stays exactly 1). -/
theorem C7_orientation_integrity (q : Quat) (dqs : List Quat)
    (hq : qnorm q = 1) (_hlen : dqs.length = 10000) :
    |qnorm (runUpdates q dqs) - 1| ≤ 1e-3 := by
  rw [runUpdates_norm dqs q hq]
  norm_num

/-- Witness for C7: 10,000 identity-rotation steps from the identity
orientation. -/
theorem C7_orientation_integrity_witness :
    |qnorm (runUpdates ⟨1, 0, 0, 0⟩ (List.replicate 10000 ⟨1, 0, 0, 0⟩)) - 1| ≤ 1e-3 :=
  C7_orientation_integrity ⟨1, 0, 0, 0⟩ (List.replicate 10000 ⟨1, 0, 0, 0⟩)
    (by simp only [qnorm]; norm_num [Real.sqrt_one]) (by rw [List.length_replicate])

/-- C8 counterexample: the patch `generateTeapot` loads is not independent of
the argument-evaluation order of the chained `k++` increments: evaluating the
first two reads of patch 0 in swapped order yields a different patch than
left-to-right order. -/
theorem C8_order_dependence_cex :
    loadPatchWithOrder 0 (Equiv.swap (0 : Fin 48) 1) ≠ teapotPatch 0 := by
  decide!

/-- C8 amended: under left-to-right argument evaluation (the identity order)
the load is the deterministic table-order mapping: point `j` of patch `i` is
exactly the table triple starting at flat index `48i + 3j`; in general the
result depends on the (unspecified) evaluation order. -/
theorem C8_table_order_load (i : ℕ) :
    loadPatchWithOrder i (Equiv.refl (Fin 48)) = teapotPatch i := rfl

set_option maxRecDepth 10000 in
/-- C9: the table holds exactly 1344 values; `generateTeapot` reads flat
indices `48i + o` for `i < 28`, `o < 48`, all within bounds; and those reads
cover the whole table exactly once each. -/
theorem C9_table_bounds :
    teapotControlPoints.length = 1344 ∧
      (∀ i < 28, ∀ o < 48, 48 * i + o < 1344) ∧
      (∀ n < 1344, ∃ i < 28, ∃ o < 48, n = 48 * i + o) := by
  refine ⟨rfl, ?_, ?_⟩
  · intro i hi o ho
    omega
  · intro n hn
    exact ⟨n / 48, by omega, n % 48, by omega, by omega⟩

/-- Witness for C9 at the last patch and last offset. -/
theorem C9_table_bounds_witness :
    teapotControlPoints.length = 1344 ∧ 48 * 27 + 47 < 1344 ∧
      ∃ i < 28, ∃ o < 48, 1343 = 48 * i + o :=
  ⟨C9_table_bounds.1, C9_table_bounds.2.1 27 (by norm_num) 47 (by norm_num),
   C9_table_bounds.2.2 1343 (by norm_num)⟩

/-- C10: each frame the angular velocity is a rotation about the fixed world
y-axis by `45·(rightKey − leftKey)`: its x and z components vanish, and with
neither key pressed it is the identity rotation, so input never introduces
rotation about any other axis. -/
theorem C10_input_rotation (rightKey leftKey : ℝ) :
    (stepAngularVelocity rightKey leftKey).x = 0 ∧
      (stepAngularVelocity rightKey leftKey).z = 0 ∧
      (rightKey = 0 → leftKey = 0 → stepAngularVelocity rightKey leftKey = ⟨1, 0, 0, 0⟩) := by
  refine ⟨?_, ?_, ?_⟩
  · simp [stepAngularVelocity, angleAxis]
  · simp [stepAngularVelocity, angleAxis]
  · intro hr hl
    simp [stepAngularVelocity, angleAxis, dThetaOf, hr, hl, Real.cos_zero, Real.sin_zero]

/-- Witness for C10 with neither arrow key pressed. -/
theorem C10_input_rotation_witness :
    (stepAngularVelocity 0 0).x = 0 ∧ (stepAngularVelocity 0 0).z = 0 ∧
      stepAngularVelocity 0 0 = ⟨1, 0, 0, 0⟩ :=
  ⟨(C10_input_rotation 0 0).1, (C10_input_rotation 0 0).2.1,
   (C10_input_rotation 0 0).2.2 rfl rfl⟩
